import Mathlib

/-!
# Ethereum transfers (`ethereum/ewm/BREthereumTransfer.c`)

A shallow embedding of the transfer module.  C pointers are handles (natural
numbers, `0` is `NULL`) into an explicit `Memory`; every function of the module
takes the memory it runs in and returns the memory it leaves.  A read or write
through a handle that names no live record has no defined behaviour in C and is a
`Fault` here.  Collaborators whose code lives outside the module (RLP coder,
signers, ABI encoder, handle comparison) are fields of `Collaborators`, so every
theorem holds for all of them.
-/

namespace Ethereum

/-! ## Scalars -/

/-- Largest value of a `uint64_t`. -/
def UINT64_MAX : Nat := 2 ^ 64 - 1

/-- The `TRANSACTION_NONCE_IS_NOT_ASSIGNED` sentinel of the module. -/
def TRANSACTION_NONCE_IS_NOT_ASSIGNED : Nat := UINT64_MAX

/-- The terminating character of a C string. -/
def NUL : Char := Char.ofNat 0

/-- Modelled from the spec: the address type is declared outside the module; the
spec describes it as a 20-byte account identifier. -/
structure BREthereumAddress where
  bytes : List Nat
deriving DecidableEq, Repr

/-- Modelled from the spec: `EMPTY_ADDRESS_INIT`, the sentinel "empty" address. -/
def EMPTY_ADDRESS_INIT : BREthereumAddress := ⟨List.replicate 20 0⟩

/-- Modelled from the spec: a 32-byte hash (type declared outside the module). -/
structure BREthereumHash where
  bytes : List Nat
deriving DecidableEq, Repr

/-- The all-zero hash left by `calloc`. -/
def EMPTY_HASH_INIT : BREthereumHash := ⟨List.replicate 32 0⟩

/-- Modelled from the spec: ether is a 256-bit unsigned scalar (in WEI). -/
structure BREthereumEther where
  valueInWEI : Nat
deriving DecidableEq, Repr

/-- Modelled from the spec: `etherCreateZero`. -/
def etherCreateZero : BREthereumEther := ⟨0⟩

/-- Modelled from the spec: an amount of gas, a 64-bit scalar. -/
structure BREthereumGas where
  amountOfGas : Nat
deriving DecidableEq, Repr

/-- Modelled from the spec: `gasCreate`. -/
def gasCreate (amountOfGas : Nat) : BREthereumGas := ⟨amountOfGas⟩

/-- Modelled from the spec: the price of one unit of gas, in ether. -/
structure BREthereumGasPrice where
  etherPerGas : BREthereumEther
deriving DecidableEq, Repr

/-- A token handle (`BREthereumToken` is a pointer in C); `0` is `NULL`. -/
abbrev BREthereumToken := Nat

/-- A transaction handle (`BREthereumTransaction` is a pointer in C); `0` is `NULL`. -/
abbrev BREthereumTransaction := Nat

/-- A log handle (`BREthereumLog` is a pointer in C); `0` is `NULL`. -/
abbrev BREthereumLog := Nat

/-- A transfer handle (`BREthereumTransfer` is a pointer in C); `0` is `NULL`. -/
abbrev BREthereumTransfer := Nat

/-- An account handle. -/
abbrev BREthereumAccount := Nat

/-- A network (chain descriptor) handle. -/
abbrev BREthereumNetwork := Nat

/-- Modelled from the spec: a token quantity, the token and a 256-bit integer. -/
structure BREthereumTokenQuantity where
  token : BREthereumToken
  valueAsInteger : Nat
deriving DecidableEq, Repr

/-- Modelled from the spec: `createTokenQuantity`. -/
def createTokenQuantity (token : BREthereumToken) (value : Nat) : BREthereumTokenQuantity :=
  ⟨token, value⟩

/-- The tag of an amount. -/
inductive BREthereumAmountType where
  | AMOUNT_ETHER
  | AMOUNT_TOKEN
deriving DecidableEq, Repr

/-- Modelled from the spec: an amount is a tagged union, ether or a token quantity. -/
inductive BREthereumAmount where
  | ether (ether : BREthereumEther)
  | tokenQuantity (tokenQuantity : BREthereumTokenQuantity)
deriving DecidableEq, Repr

/-- Modelled from the spec: `amountCreateEther`. -/
def amountCreateEther (ether : BREthereumEther) : BREthereumAmount := .ether ether

/-- Modelled from the spec: `amountCreateToken`. -/
def amountCreateToken (q : BREthereumTokenQuantity) : BREthereumAmount := .tokenQuantity q

/-- Modelled from the spec: `amountGetType`, the tag of the union. -/
def amountGetType : BREthereumAmount → BREthereumAmountType
  | .ether _ => .AMOUNT_ETHER
  | .tokenQuantity _ => .AMOUNT_TOKEN

/-- Modelled from the spec: a fee basis is a tagged union, none or gas (limit, price). -/
inductive BREthereumFeeBasis where
  | FEE_BASIS_NONE
  | FEE_BASIS_GAS (limit : BREthereumGas) (price : BREthereumGasPrice)
deriving DecidableEq, Repr

/-- The kinds of signature a signer can be asked for. -/
inductive BREthereumSignatureType where
  | SIGNATURE_TYPE_FOO
  | SIGNATURE_TYPE_RECOVERABLE
deriving DecidableEq, Repr

/-- Modelled from the spec: a signature as returned by a signer, its kind and bytes. -/
structure BREthereumSignature where
  type : BREthereumSignatureType
  bytes : List Nat
deriving DecidableEq, Repr

/-- The two shapes of the RLP serialization of a transaction. -/
inductive BREthereumRlpType where
  | RLP_TYPE_TRANSACTION_UNSIGNED
  | RLP_TYPE_TRANSACTION_SIGNED
deriving DecidableEq, Repr

/-- Result of a handle comparison. -/
inductive BREthereumComparison where
  | ETHEREUM_COMPARISON_LT
  | ETHEREUM_COMPARISON_EQ
  | ETHEREUM_COMPARISON_GT
deriving DecidableEq, Repr

/-- The boolean of the Ethereum code. -/
inductive BREthereumBoolean where
  | ETHEREUM_BOOLEAN_TRUE
  | ETHEREUM_BOOLEAN_FALSE
deriving DecidableEq, Repr

/-- The `AS_ETHEREUM_BOOLEAN` conversion of a C truth value. -/
def AS_ETHEREUM_BOOLEAN (x : Bool) : BREthereumBoolean :=
  if x then .ETHEREUM_BOOLEAN_TRUE else .ETHEREUM_BOOLEAN_FALSE

/-! ## Status -/

/-- The payload of an included status: `gasUsed`, `blockHash`, `blockNumber`,
`transactionIndex`. -/
structure StatusIncluded where
  gasUsed : BREthereumGas
  blockHash : BREthereumHash
  blockNumber : Nat
  transactionIndex : Nat
deriving DecidableEq, Repr

/-- The included payload with every byte zero. -/
def StatusIncluded.zero : StatusIncluded :=
  { gasUsed := gasCreate 0, blockHash := EMPTY_HASH_INIT, blockNumber := 0, transactionIndex := 0 }

/-- Modelled from the spec: the status kinds of a transaction, named by the switch of
`transferCreateWithTransaction`. -/
inductive BREthereumTransactionStatusType where
  | TRANSACTION_STATUS_UNKNOWN
  | TRANSACTION_STATUS_QUEUED
  | TRANSACTION_STATUS_PENDING
  | TRANSACTION_STATUS_INCLUDED
  | TRANSACTION_STATUS_ERRORED
deriving DecidableEq, Repr

/-- Modelled from the spec: the status of a transaction or log, its kind with the
included payload and the error detail. -/
structure BREthereumTransactionStatus where
  type : BREthereumTransactionStatusType
  included : StatusIncluded
  erroredDetail : List Char
deriving DecidableEq, Repr

/-- Modelled from the spec: `transactionStatusExtractIncluded` with only the
`blockNumber` output requested (the other three outputs are `NULL` at the one call of
this module).  The slot is written when the status is included. -/
def transactionStatusExtractIncluded (status : BREthereumTransactionStatus)
    (blockNumber : Nat) : Int × Nat :=
  if status.type ≠ .TRANSACTION_STATUS_INCLUDED then (0, blockNumber)
  else (1, status.included.blockNumber)

/-- Size in bytes of `BREthereumGas` (one `uint64_t`). -/
def sizeof_BREthereumGas : Nat := 8

/-- Size in bytes of `BREthereumHash`. -/
def sizeof_BREthereumHash : Nat := 32

/-- Size in bytes of `uint64_t`. -/
def sizeof_uint64_t : Nat := 8

/-- The `TRANSFER_STATUS_REASON_BYTES` bound of the module. -/
def TRANSFER_STATUS_REASON_BYTES : Nat :=
  sizeof_BREthereumGas + sizeof_BREthereumHash + 2 * sizeof_uint64_t

/-- Modelled from the spec: the status kinds of a transfer (the enumeration is declared
in the module's header); the first one is the value of a zeroed record. -/
inductive BREthereumTransferStatusType where
  | TRANSFER_STATUS_SUBMITTED
  | TRANSFER_STATUS_INCLUDED
  | TRANSFER_STATUS_ERRORED
deriving DecidableEq, Repr

/-- The `BREthereumTransferStatusRecord` of the module.  The two members of the C union
`u` are kept side by side: every read of the module goes through the member its `type`
selects, and no operation writes one member after the other. `reason` is the character
array of `TRANSFER_STATUS_REASON_BYTES + 1` cells. -/
structure BREthereumTransferStatus where
  type : BREthereumTransferStatusType
  included : StatusIncluded
  reason : List Char
deriving DecidableEq, Repr

/-- The status of a record fresh from `calloc`. -/
def BREthereumTransferStatus.zero : BREthereumTransferStatus :=
  { type := .TRANSFER_STATUS_SUBMITTED
    included := StatusIncluded.zero
    reason := List.replicate (TRANSFER_STATUS_REASON_BYTES + 1) NUL }

/-! ## Basis -/

/-- The `BREthereumTransferBasisType` of the module. -/
inductive BREthereumTransferBasisType where
  | TRANSFER_BASIS_TRANSACTION
  | TRANSFER_BASIS_LOG
deriving DecidableEq, Repr

/-- The `BREthereumTransferBasis` of the module: the union `u` of two pointers is one
handle-sized cell, read as a transaction or as a log. -/
structure BREthereumTransferBasis where
  type : BREthereumTransferBasisType
  u : Nat
deriving DecidableEq, Repr

/-- The basis of a record fresh from `calloc`. -/
def BREthereumTransferBasis.zero : BREthereumTransferBasis :=
  { type := .TRANSFER_BASIS_TRANSACTION, u := 0 }

/-! ## Records -/

/-- The `BREthereumTransferRecord` of the module. -/
structure BREthereumTransferRecord where
  sourceAddress : BREthereumAddress
  targetAddress : BREthereumAddress
  amount : BREthereumAmount
  feeBasis : BREthereumFeeBasis
  gasEstimate : BREthereumGas
  originatingTransaction : BREthereumTransaction
  basis : BREthereumTransferBasis
  status : BREthereumTransferStatus
deriving DecidableEq, Repr

/-- Modelled from the spec: the transaction entity, with the fields the module reads or
writes through its interface (source, target, amount, gas price and limit, call data,
nonce, signature, status). -/
structure BREthereumTransactionRecord where
  sourceAddress : BREthereumAddress
  targetAddress : BREthereumAddress
  amount : BREthereumEther
  gasPrice : BREthereumGasPrice
  gasLimit : BREthereumGas
  data : List Char
  nonce : Nat
  signature : Option BREthereumSignature
  status : BREthereumTransactionStatus
deriving DecidableEq, Repr

/-- Modelled from the spec: the log entity, of which the module reads the status. -/
structure BREthereumLogRecord where
  status : BREthereumTransactionStatus
deriving DecidableEq, Repr

/-- The part of the machine state the module touches: the live records behind the
handles, the per-address nonce counters of the accounts, and the allocation mark. -/
structure Memory where
  transfers : BREthereumTransfer → Option BREthereumTransferRecord
  transactions : BREthereumTransaction → Option BREthereumTransactionRecord
  logs : BREthereumLog → Option BREthereumLogRecord
  nonces : BREthereumAccount → BREthereumAddress → Nat
  brk : Nat

/-- What stops a call short of returning. -/
inductive Fault where
  | invalidPointer
  | assertion
  | outOfBounds
deriving DecidableEq, Repr

/-! ## C strings -/

/-- The characters of a C string held in `buf`: those before the first `NUL`. -/
def cstring (buf : List Char) : List Char :=
  buf.takeWhile (fun ch => ch != NUL)

/-- The `strncpy (dst, src, n)` of the C library on character arrays: cells `0 .. n-1`
of `dst` receive the characters of the string `src`, cut at `n` and padded with `NUL`;
the cells from `n` on are kept.  Writing more cells than `dst` has is out of bounds. -/
def strncpy (dst src : List Char) (n : Nat) : Except Fault (List Char) :=
  if dst.length < n then .error .outOfBounds
  else
    let body := (cstring src).take n
    .ok (body ++ List.replicate (n - body.length) NUL ++ dst.drop n)

/-- The `strdup (s)` of the C library on a character array: a fresh copy of the string
in `buf`.  Without a `NUL` in the array the read runs out of bounds. -/
def strdup (buf : List Char) : Except Fault (List Char) :=
  if NUL ∈ buf then .ok (cstring buf) else .error .outOfBounds

/-- The placeholder reason written by `transferCreateWithTransaction`. -/
def UNKNOWN_FOR_NOW : List Char := "Unknown (for now)".toList

/-! ## Collaborators -/

/-- A raw private key. -/
structure BRKey where
  secret : List Nat
deriving DecidableEq, Repr

/-- The contracts known to the ABI encoder. -/
inductive BREthereumContract where
  | contractERC20
deriving DecidableEq, Repr

/-- The contract functions known to the ABI encoder. -/
inductive BREthereumContractFunction where
  | functionERC20Transfer
deriving DecidableEq, Repr

/-- The functions the module calls whose code lives outside it.  `contractEncode` gets
the characters of its address argument and the 256-bit integer of its amount argument;
`transactionRlpEncode` stands for `transactionRlpEncode` followed by `rlpGetData`;
`transactionGetFee` gets the record of the transaction and the cell behind its
`overflow` pointer (`none` for `NULL`), and returns the fee and what it leaves in the
cell. -/
structure Collaborators where
  tokenGetAddressRaw : BREthereumToken → BREthereumAddress
  feeBasisGetGasPrice : BREthereumFeeBasis → BREthereumGasPrice
  feeBasisGetGasLimit : BREthereumFeeBasis → BREthereumGas
  contractEncode : BREthereumContract → BREthereumContractFunction → List Char → Nat → List Char
  transactionRlpEncode : BREthereumTransactionRecord → BREthereumNetwork → BREthereumRlpType → List Nat
  accountSignBytes : BREthereumAccount → BREthereumAddress → BREthereumSignatureType →
    List Nat → List Char → BREthereumSignature
  accountSignBytesWithPrivateKey : BREthereumAccount → BREthereumAddress →
    BREthereumSignatureType → List Nat → BRKey → BREthereumSignature
  transactionCompare : Memory → BREthereumTransaction → BREthereumTransaction → BREthereumComparison
  logCompare : Memory → BREthereumLog → BREthereumLog → BREthereumComparison
  transactionGetFee : BREthereumTransactionRecord → Option Int → BREthereumEther × Option Int

/-- One hexadecimal digit, lower case. -/
def hexChar (n : Nat) : Char :=
  if n < 10 then Char.ofNat (48 + n) else Char.ofNat (87 + n)

/-- The hexadecimal form of a byte string, two digits a byte. -/
def encodeHex : List Nat → List Char
  | [] => []
  | b :: bs => hexChar (b / 16 % 16) :: hexChar (b % 16) :: encodeHex bs

/-- The value of one hexadecimal digit, lower case. -/
def hexValue (ch : Char) : Nat :=
  if ch.toNat < 58 then ch.toNat - 48 else ch.toNat - 87

/-- The byte string a hexadecimal form stands for. -/
def decodeHex : List Char → List Nat
  | hi :: lo :: rest => (16 * hexValue hi + hexValue lo) :: decodeHex rest
  | _ => []

/-- Modelled from the spec: `addressFillEncodedString (address, 0, string)`, the hex form
of the address behind its 2-character protocol mark, without checksum. -/
def addressFillEncodedString (address : BREthereumAddress) : List Char :=
  '0' :: 'x' :: encodeHex address.bytes

/-! ## Memory -/

/-- Store `r` behind the transfer handle `p` (`none` frees the cell). -/
def Memory.setTransfer (m : Memory) (p : BREthereumTransfer)
    (r : Option BREthereumTransferRecord) : Memory :=
  { m with transfers := fun q => if q = p then r else m.transfers q }

/-- Store `r` behind the transaction handle `p` (`none` frees the cell). -/
def Memory.setTransaction (m : Memory) (p : BREthereumTransaction)
    (r : Option BREthereumTransactionRecord) : Memory :=
  { m with transactions := fun q => if q = p then r else m.transactions q }

/-- The status of a transaction nobody has observed yet. -/
def BREthereumTransactionStatus.zero : BREthereumTransactionStatus :=
  { type := .TRANSACTION_STATUS_UNKNOWN, included := StatusIncluded.zero, erroredDetail := [] }

/-- Modelled from the spec: `transactionCreate`, a fresh unsigned transaction with the
given source, target, amount, gas price, gas limit, call data and nonce. -/
def transactionCreate (m : Memory) (sourceAddress targetAddress : BREthereumAddress)
    (amount : BREthereumEther) (gasPrice : BREthereumGasPrice) (gasLimit : BREthereumGas)
    (data : List Char) (nonce : Nat) : Memory × BREthereumTransaction :=
  let transaction := m.brk + 1
  ({ m with
      transactions := fun q =>
        if q = transaction then
          some { sourceAddress := sourceAddress, targetAddress := targetAddress,
                 amount := amount, gasPrice := gasPrice, gasLimit := gasLimit,
                 data := data, nonce := nonce, signature := none,
                 status := BREthereumTransactionStatus.zero }
        else m.transactions q
      brk := transaction },
   transaction)

/-- Modelled from the spec: `transactionRelease`, the release of a transaction. -/
def transactionRelease (m : Memory) (transaction : BREthereumTransaction) : Except Fault Memory :=
  match m.transactions transaction with
  | none => .error .invalidPointer
  | some _ => .ok (m.setTransaction transaction none)

/-- Modelled from the spec: `transactionGetNonce`. -/
def transactionGetNonce (m : Memory) (transaction : BREthereumTransaction) : Except Fault Nat :=
  match m.transactions transaction with
  | none => .error .invalidPointer
  | some tx => .ok tx.nonce

/-- Modelled from the spec: `transactionSetNonce`. -/
def transactionSetNonce (m : Memory) (transaction : BREthereumTransaction) (nonce : Nat) :
    Except Fault Memory :=
  match m.transactions transaction with
  | none => .error .invalidPointer
  | some tx => .ok (m.setTransaction transaction (some { tx with nonce := nonce }))

/-- Modelled from the spec: `transactionSign`, which attaches a signature. -/
def transactionSign (m : Memory) (transaction : BREthereumTransaction)
    (signature : BREthereumSignature) : Except Fault Memory :=
  match m.transactions transaction with
  | none => .error .invalidPointer
  | some tx => .ok (m.setTransaction transaction (some { tx with signature := some signature }))

/-- The call `transactionRlpEncode (transaction, network, type, coder)` followed by
`rlpGetData`: the serialization of the record behind the handle. -/
def transactionRlpEncode (c : Collaborators) (m : Memory) (transaction : BREthereumTransaction)
    (network : BREthereumNetwork) (type : BREthereumRlpType) : Except Fault (List Nat) :=
  match m.transactions transaction with
  | none => .error .invalidPointer
  | some tx => .ok (c.transactionRlpEncode tx network type)

/-- Modelled from the spec: `accountGetThenIncrementAddressNonce`, the fetch-and-increment
of the 64-bit nonce counter of (account, address): the value before, and the memory
with the counter one further. -/
def accountGetThenIncrementAddressNonce (m : Memory) (account : BREthereumAccount)
    (address : BREthereumAddress) : Nat × Memory :=
  (m.nonces account address,
   { m with
      nonces := fun a b =>
        if a = account ∧ b = address then (m.nonces account address + 1) % 2 ^ 64
        else m.nonces a b })

/-! ## The module -/

/-- The `transferCreateDetailed` of the module: a zeroed record (`calloc`) with source,
target, amount, fee basis, gas estimate and originating transaction filled in. -/
def transferCreateDetailed (m : Memory) (sourceAddress targetAddress : BREthereumAddress)
    (amount : BREthereumAmount) (feeBasis : BREthereumFeeBasis)
    (originatingTransaction : BREthereumTransaction) : Memory × BREthereumTransfer :=
  let transfer := m.brk + 1
  (({ m with brk := transfer } : Memory).setTransfer transfer
      (some { sourceAddress := sourceAddress
              targetAddress := targetAddress
              amount := amount
              feeBasis := feeBasis
              gasEstimate := gasCreate 0
              originatingTransaction := originatingTransaction
              basis := BREthereumTransferBasis.zero
              status := BREthereumTransferStatus.zero }),
   transfer)

/-- The `transferProvideOriginatingTransactionData` of the module, on the record behind
the handle: no call data for ether; for a token the encoded ERC20 transfer, built from
the characters of the target address after the first two and from the token quantity. -/
def transferProvideOriginatingTransactionData (c : Collaborators)
    (transfer : BREthereumTransferRecord) : List Char :=
  match transfer.amount with
  | .ether _ => []
  | .tokenQuantity q =>
    let value := q.valueAsInteger
    let address := addressFillEncodedString transfer.targetAddress
    c.contractEncode .contractERC20 .functionERC20Transfer
      ((address.drop 2).take (address.length - 2)) value

/-- The `transferProvideOriginatingTransactionTargetAddress` of the module. -/
def transferProvideOriginatingTransactionTargetAddress (c : Collaborators)
    (transfer : BREthereumTransferRecord) : BREthereumAddress :=
  match transfer.amount with
  | .ether _ => transfer.targetAddress
  | .tokenQuantity q => c.tokenGetAddressRaw q.token

/-- The `transferProvideOriginatingTransactionAmount` of the module. -/
def transferProvideOriginatingTransactionAmount (transfer : BREthereumTransferRecord) :
    BREthereumEther :=
  match transfer.amount with
  | .ether e => e
  | .tokenQuantity _ => etherCreateZero

/-- The `transferProvideOriginatingTransaction` of the module: release the transaction
the transfer owns, if any, then build a new one and store its handle. -/
def transferProvideOriginatingTransaction (c : Collaborators) (m : Memory)
    (transfer : BREthereumTransfer) : Except Fault Memory :=
  match m.transfers transfer with
  | none => .error .invalidPointer
  | some t =>
    match (if t.originatingTransaction ≠ 0 then transactionRelease m t.originatingTransaction
           else .ok m) with
    | .error e => .error e
    | .ok m1 =>
      let data := transferProvideOriginatingTransactionData c t
      let created := transactionCreate m1 t.sourceAddress
        (transferProvideOriginatingTransactionTargetAddress c t)
        (transferProvideOriginatingTransactionAmount t)
        (c.feeBasisGetGasPrice t.feeBasis)
        (c.feeBasisGetGasLimit t.feeBasis)
        data
        TRANSACTION_NONCE_IS_NOT_ASSIGNED
      .ok (created.1.setTransfer transfer (some { t with originatingTransaction := created.2 }))

/-- The `transferCreate` of the module. -/
def transferCreate (c : Collaborators) (m : Memory) (sourceAddress targetAddress : BREthereumAddress)
    (amount : BREthereumAmount) (feeBasis : BREthereumFeeBasis) :
    Except Fault (Memory × BREthereumTransfer) :=
  let created := transferCreateDetailed m sourceAddress targetAddress amount feeBasis 0
  match transferProvideOriginatingTransaction c created.1 created.2 with
  | .error e => .error e
  | .ok m1 => .ok (m1, created.2)

/-- The `transferCreateWithTransaction` of the module. -/
def transferCreateWithTransaction (m : Memory) (transaction : BREthereumTransaction) :
    Except Fault (Memory × BREthereumTransfer) :=
  match m.transactions transaction with
  | none => .error .invalidPointer
  | some tx =>
    let feeBasis := BREthereumFeeBasis.FEE_BASIS_GAS tx.gasLimit tx.gasPrice
    let created := transferCreateDetailed m tx.sourceAddress tx.targetAddress
      (amountCreateEther tx.amount) feeBasis 0
    match created.1.transfers created.2 with
    | none => .error .invalidPointer
    | some t0 =>
      -- Basis
      let t := { t0 with basis := { type := .TRANSFER_BASIS_TRANSACTION, u := transaction } }
      -- Status
      let status := tx.status
      match status.type with
      | .TRANSACTION_STATUS_UNKNOWN
      | .TRANSACTION_STATUS_QUEUED
      | .TRANSACTION_STATUS_PENDING =>
        .ok (created.1.setTransfer created.2
              (some { t with status := { t.status with type := .TRANSFER_STATUS_SUBMITTED } }),
             created.2)
      | .TRANSACTION_STATUS_INCLUDED =>
        .ok (created.1.setTransfer created.2
              (some { t with status :=
                { t.status with
                    type := .TRANSFER_STATUS_INCLUDED
                    included :=
                      { t.status.included with
                          blockNumber :=
                            (transactionStatusExtractIncluded status
                              t.status.included.blockNumber).2 } } }),
             created.2)
      | .TRANSACTION_STATUS_ERRORED =>
        match strncpy t.status.reason UNKNOWN_FOR_NOW TRANSFER_STATUS_REASON_BYTES with
        | .error e => .error e
        | .ok reason =>
          .ok (created.1.setTransfer created.2
                (some { t with status :=
                  { t.status with type := .TRANSFER_STATUS_ERRORED, reason := reason } }),
               created.2)

/-- The `transferCreateWithLog` of the module.  The status of the log is read
(`logGetStatus`) and not used. -/
def transferCreateWithLog (m : Memory) (log : BREthereumLog) (token : BREthereumToken) :
    Except Fault (Memory × BREthereumTransfer) :=
  let feeBasis := BREthereumFeeBasis.FEE_BASIS_NONE
  let sourceAddress := EMPTY_ADDRESS_INIT
  let targetAddress := EMPTY_ADDRESS_INIT
  let value := 0
  let amount := amountCreateToken (createTokenQuantity token value)
  let created := transferCreateDetailed m sourceAddress targetAddress amount feeBasis 0
  match created.1.transfers created.2 with
  | none => .error .invalidPointer
  | some t0 =>
    -- Basis
    let t := { t0 with basis := { type := .TRANSFER_BASIS_LOG, u := log } }
    match m.logs log with
    | none => .error .invalidPointer
    | some _ => .ok (created.1.setTransfer created.2 (some t), created.2)

/-- The `transferRelease` of the module: `free (transfer)`, nothing else.  Freeing `NULL`
does nothing. -/
def transferRelease (m : Memory) (transfer : BREthereumTransfer) : Except Fault Memory :=
  if transfer = 0 then .ok m
  else
    match m.transfers transfer with
    | none => .error .invalidPointer
    | some _ => .ok (m.setTransfer transfer none)

/-- The `transferGetSourceAddress` of the module. -/
def transferGetSourceAddress (m : Memory) (transfer : BREthereumTransfer) :
    Except Fault BREthereumAddress :=
  match m.transfers transfer with
  | none => .error .invalidPointer
  | some t => .ok t.sourceAddress

/-- The `transferGetTargetAddress` of the module. -/
def transferGetTargetAddress (m : Memory) (transfer : BREthereumTransfer) :
    Except Fault BREthereumAddress :=
  match m.transfers transfer with
  | none => .error .invalidPointer
  | some t => .ok t.targetAddress

/-- The `transferGetAmount` of the module. -/
def transferGetAmount (m : Memory) (transfer : BREthereumTransfer) :
    Except Fault BREthereumAmount :=
  match m.transfers transfer with
  | none => .error .invalidPointer
  | some t => .ok t.amount

/-- The `transferGetOriginatingTransaction` of the module. -/
def transferGetOriginatingTransaction (m : Memory) (transfer : BREthereumTransfer) :
    Except Fault BREthereumTransaction :=
  match m.transfers transfer with
  | none => .error .invalidPointer
  | some t => .ok t.originatingTransaction

/-- The `transferSetGasEstimate` of the module. -/
def transferSetGasEstimate (m : Memory) (transfer : BREthereumTransfer)
    (gasEstimate : BREthereumGas) : Except Fault Memory :=
  match m.transfers transfer with
  | none => .error .invalidPointer
  | some t => .ok (m.setTransfer transfer (some { t with gasEstimate := gasEstimate }))

/-- The `transferGetBasisTransaction` of the module. -/
def transferGetBasisTransaction (m : Memory) (transfer : BREthereumTransfer) :
    Except Fault BREthereumTransaction :=
  match m.transfers transfer with
  | none => .error .invalidPointer
  | some t =>
    .ok (if BREthereumTransferBasisType.TRANSFER_BASIS_TRANSACTION = t.basis.type then t.basis.u
         else 0)

/-- The `transferGetBasisLog` of the module. -/
def transferGetBasisLog (m : Memory) (transfer : BREthereumTransfer) :
    Except Fault BREthereumLog :=
  match m.transfers transfer with
  | none => .error .invalidPointer
  | some t =>
    .ok (if BREthereumTransferBasisType.TRANSFER_BASIS_LOG = t.basis.type then t.basis.u
         else 0)

/-- The `transferSign` of the module.  The coder and the byte buffer are locals of the
call, created and released inside it. -/
def transferSign (c : Collaborators) (m : Memory) (transfer : BREthereumTransfer)
    (network : BREthereumNetwork) (account : BREthereumAccount) (address : BREthereumAddress)
    (paperKey : List Char) : Except Fault Memory :=
  match m.transfers transfer with
  | none => .error .invalidPointer
  | some t =>
    match transactionGetNonce m t.originatingTransaction with
    | .error e => .error e
    | .ok nonce =>
      match (if TRANSACTION_NONCE_IS_NOT_ASSIGNED = nonce then
               let fetched := accountGetThenIncrementAddressNonce m account address
               transactionSetNonce fetched.2 t.originatingTransaction fetched.1
             else .ok m) with
      | .error e => .error e
      | .ok m1 =>
        -- RLP Encode the UNSIGNED transfer
        match transactionRlpEncode c m1 t.originatingTransaction network
                .RLP_TYPE_TRANSACTION_UNSIGNED with
        | .error e => .error e
        | .ok data =>
          -- Sign the RLP Encoded bytes.
          let signature := c.accountSignBytes account address .SIGNATURE_TYPE_RECOVERABLE
            data paperKey
          -- Attach the signature
          transactionSign m1 t.originatingTransaction signature

/-- The `transferSignWithKey` of the module. -/
def transferSignWithKey (c : Collaborators) (m : Memory) (transfer : BREthereumTransfer)
    (network : BREthereumNetwork) (account : BREthereumAccount) (address : BREthereumAddress)
    (privateKey : BRKey) : Except Fault Memory :=
  match m.transfers transfer with
  | none => .error .invalidPointer
  | some t =>
    match transactionGetNonce m t.originatingTransaction with
    | .error e => .error e
    | .ok nonce =>
      match (if TRANSACTION_NONCE_IS_NOT_ASSIGNED = nonce then
               let fetched := accountGetThenIncrementAddressNonce m account address
               transactionSetNonce fetched.2 t.originatingTransaction fetched.1
             else .ok m) with
      | .error e => .error e
      | .ok m1 =>
        -- RLP Encode the UNSIGNED transfer
        match transactionRlpEncode c m1 t.originatingTransaction network
                .RLP_TYPE_TRANSACTION_UNSIGNED with
        | .error e => .error e
        | .ok data =>
          -- Sign the RLP Encoded bytes.
          let signature := c.accountSignBytesWithPrivateKey account address
            .SIGNATURE_TYPE_RECOVERABLE data privateKey
          -- Attach the signature
          transactionSign m1 t.originatingTransaction signature

/-- The `transferHasStatusType` of the module. -/
def transferHasStatusType (m : Memory) (transfer : BREthereumTransfer)
    (type : BREthereumTransferStatusType) : Except Fault BREthereumBoolean :=
  match m.transfers transfer with
  | none => .error .invalidPointer
  | some t => .ok (AS_ETHEREUM_BOOLEAN (decide (t.status.type = type)))

/-- What `transferExtractStatusIncluded` leaves: the memory, the returned `int`, and the
cell behind `blockNumber` (`none` when the pointer is `NULL`). -/
structure ExtractedIncluded where
  memory : Memory
  result : Int
  blockNumber : Option Nat

/-- The `transferExtractStatusIncluded` of the module.  The argument `blockNumber` is
`none` for a `NULL` pointer and `some v` for a pointer to a cell holding `v`. -/
def transferExtractStatusIncluded (m : Memory) (transfer : BREthereumTransfer)
    (blockNumber : Option Nat) : Except Fault ExtractedIncluded :=
  match m.transfers transfer with
  | none => .error .invalidPointer
  | some t =>
    if BREthereumTransferStatusType.TRANSFER_STATUS_INCLUDED ≠ t.status.type then
      .ok { memory := m, result := 0, blockNumber := blockNumber }
    else
      .ok { memory := m, result := 1
            blockNumber := if blockNumber.isSome then some t.status.included.blockNumber
                           else blockNumber }

/-- What `transferExtractStatusError` leaves: the memory, the returned `int`, and the
cell behind `reason` (`none` when the pointer is `NULL`; the cell holds a string or no
string). -/
structure ExtractedError where
  memory : Memory
  result : Int
  reason : Option (Option (List Char))

/-- The `transferExtractStatusError` of the module.  The argument `reason` is `none` for
a `NULL` pointer and `some s` for a pointer to a cell holding `s`. -/
def transferExtractStatusError (m : Memory) (transfer : BREthereumTransfer)
    (reason : Option (Option (List Char))) : Except Fault ExtractedError :=
  match m.transfers transfer with
  | none => .error .invalidPointer
  | some t =>
    if BREthereumTransferStatusType.TRANSFER_STATUS_ERRORED ≠ t.status.type then
      .ok { memory := m, result := 0, reason := reason }
    else if reason.isSome then
      match strdup t.status.reason with
      | .error e => .error e
      | .ok copy => .ok { memory := m, result := 1, reason := some (some copy) }
    else
      .ok { memory := m, result := 1, reason := reason }

/-- The `transferCompare` of the module; the `assert` stops the call when the basis
kinds differ. -/
def transferCompare (c : Collaborators) (m : Memory) (t1 t2 : BREthereumTransfer) :
    Except Fault BREthereumComparison :=
  match m.transfers t1, m.transfers t2 with
  | some r1, some r2 =>
    if r1.basis.type ≠ r2.basis.type then .error .assertion
    else
      match r1.basis.type with
      | .TRANSFER_BASIS_TRANSACTION => .ok (c.transactionCompare m r1.basis.u r2.basis.u)
      | .TRANSFER_BASIS_LOG => .ok (c.logCompare m r1.basis.u r2.basis.u)
  | _, _ => .error .invalidPointer

/-- The `transferGetToken` of the module: the token of a token amount, `NULL` otherwise. -/
def transferGetToken (m : Memory) (transfer : BREthereumTransfer) :
    Except Fault BREthereumToken :=
  match m.transfers transfer with
  | none => .error .invalidPointer
  | some t =>
    .ok (match t.amount with
         | .tokenQuantity q => q.token
         | .ether _ => 0)

/-- The `transferGetFeeBasis` of the module. -/
def transferGetFeeBasis (m : Memory) (transfer : BREthereumTransfer) :
    Except Fault BREthereumFeeBasis :=
  match m.transfers transfer with
  | none => .error .invalidPointer
  | some t => .ok t.feeBasis

/-- The `transferGetGasEstimate` of the module. -/
def transferGetGasEstimate (m : Memory) (transfer : BREthereumTransfer) :
    Except Fault BREthereumGas :=
  match m.transfers transfer with
  | none => .error .invalidPointer
  | some t => .ok t.gasEstimate

/-- The `transferGetNonce` of the module. -/
def transferGetNonce (m : Memory) (transfer : BREthereumTransfer) : Except Fault Nat :=
  match m.transfers transfer with
  | none => .error .invalidPointer
  | some t =>
    if 0 ≠ t.originatingTransaction then transactionGetNonce m t.originatingTransaction
    else .ok TRANSACTION_NONCE_IS_NOT_ASSIGNED

/-- The `transferGetFee` of the module.  The argument `overflow` is `none` for a `NULL`
pointer and `some v` for a pointer to a cell holding `v`; the result is the fee and the
cell after the call. -/
def transferGetFee (c : Collaborators) (m : Memory) (transfer : BREthereumTransfer)
    (overflow : Option Int) : Except Fault (BREthereumEther × Option Int) :=
  match m.transfers transfer with
  | none => .error .invalidPointer
  | some t =>
    let overflow1 := if overflow.isSome then some 0 else overflow
    match t.basis.type with
    | .TRANSFER_BASIS_LOG => .ok (etherCreateZero, overflow1)
    | .TRANSFER_BASIS_TRANSACTION =>
      match m.transactions t.basis.u with
      | none => .error .invalidPointer
      | some tx => .ok (c.transactionGetFee tx overflow1)

/-- The `transferHasStatusTypeOrTwo` of the module. -/
def transferHasStatusTypeOrTwo (m : Memory) (transfer : BREthereumTransfer)
    (type1 type2 : BREthereumTransferStatusType) : Except Fault BREthereumBoolean :=
  match m.transfers transfer with
  | none => .error .invalidPointer
  | some t =>
    .ok (AS_ETHEREUM_BOOLEAN (decide (t.status.type = type1) || decide (t.status.type = type2)))

/-- The `transferGetEffectiveAmountInEther` of the module. -/
def transferGetEffectiveAmountInEther (m : Memory) (transfer : BREthereumTransfer) :
    Except Fault BREthereumEther :=
  match m.transfers transfer with
  | none => .error .invalidPointer
  | some t =>
    match t.basis.type with
    | .TRANSFER_BASIS_LOG => .ok etherCreateZero
    | .TRANSFER_BASIS_TRANSACTION =>
      match m.transactions t.basis.u with
      | none => .error .invalidPointer
      | some tx => .ok tx.amount

/-- The record `transferCreateDetailed` leaves behind a new handle. -/
def detailedRecord (sourceAddress targetAddress : BREthereumAddress)
    (amount : BREthereumAmount) (feeBasis : BREthereumFeeBasis)
    (originatingTransaction : BREthereumTransaction) : BREthereumTransferRecord where
  sourceAddress := sourceAddress
  targetAddress := targetAddress
  amount := amount
  feeBasis := feeBasis
  gasEstimate := gasCreate 0
  originatingTransaction := originatingTransaction
  basis := BREthereumTransferBasis.zero
  status := BREthereumTransferStatus.zero

/-- The record of the transaction `transferProvideOriginatingTransaction` builds for a
transfer record. -/
def synthesizedRecord (c : Collaborators) (t : BREthereumTransferRecord) :
    BREthereumTransactionRecord where
  sourceAddress := t.sourceAddress
  targetAddress := transferProvideOriginatingTransactionTargetAddress c t
  amount := transferProvideOriginatingTransactionAmount t
  gasPrice := c.feeBasisGetGasPrice t.feeBasis
  gasLimit := c.feeBasisGetGasLimit t.feeBasis
  data := transferProvideOriginatingTransactionData c t
  nonce := TRANSACTION_NONCE_IS_NOT_ASSIGNED
  signature := none
  status := BREthereumTransactionStatus.zero

/-! ## Reachable memories -/

/-- The memories the module can be in: it starts without any transfer, the module's
constructors and operations run on it, and other subsystems change whatever is not a
transfer record. -/
inductive Reachable (c : Collaborators) : Memory → Prop where
  | start (m : Memory) : (∀ p, m.transfers p = none) → Reachable c m
  | outside (m m1 : Memory) : Reachable c m → m1.transfers = m.transfers → Reachable c m1
  | create (m m1 : Memory) (sourceAddress targetAddress : BREthereumAddress)
      (amount : BREthereumAmount) (feeBasis : BREthereumFeeBasis) (transfer : BREthereumTransfer) :
      Reachable c m →
      transferCreate c m sourceAddress targetAddress amount feeBasis = .ok (m1, transfer) →
      Reachable c m1
  | createWithTransaction (m m1 : Memory) (transaction : BREthereumTransaction)
      (transfer : BREthereumTransfer) :
      Reachable c m → transferCreateWithTransaction m transaction = .ok (m1, transfer) →
      Reachable c m1
  | createWithLog (m m1 : Memory) (log : BREthereumLog) (token : BREthereumToken)
      (transfer : BREthereumTransfer) :
      Reachable c m → transferCreateWithLog m log token = .ok (m1, transfer) → Reachable c m1
  | release (m m1 : Memory) (transfer : BREthereumTransfer) :
      Reachable c m → transferRelease m transfer = .ok m1 → Reachable c m1
  | setGasEstimate (m m1 : Memory) (transfer : BREthereumTransfer) (gasEstimate : BREthereumGas) :
      Reachable c m → transferSetGasEstimate m transfer gasEstimate = .ok m1 → Reachable c m1
  | sign (m m1 : Memory) (transfer : BREthereumTransfer) (network : BREthereumNetwork)
      (account : BREthereumAccount) (address : BREthereumAddress) (paperKey : List Char) :
      Reachable c m → transferSign c m transfer network account address paperKey = .ok m1 →
      Reachable c m1
  | signWithKey (m m1 : Memory) (transfer : BREthereumTransfer) (network : BREthereumNetwork)
      (account : BREthereumAccount) (address : BREthereumAddress) (privateKey : BRKey) :
      Reachable c m →
      transferSignWithKey c m transfer network account address privateKey = .ok m1 →
      Reachable c m1

/-! ## Sample inputs -/

/-- A sample address, `A`. -/
def addressA : BREthereumAddress := ⟨List.replicate 20 170⟩

/-- A sample address, `B`. -/
def addressB : BREthereumAddress := ⟨List.replicate 20 187⟩

/-- Sample collaborators: small stand-ins that keep every input visible in the output. -/
def sampleCollaborators : Collaborators where
  tokenGetAddressRaw := fun token => ⟨List.replicate 20 token⟩
  feeBasisGetGasPrice := fun feeBasis =>
    match feeBasis with
    | .FEE_BASIS_NONE => ⟨⟨0⟩⟩
    | .FEE_BASIS_GAS _ price => price
  feeBasisGetGasLimit := fun feeBasis =>
    match feeBasis with
    | .FEE_BASIS_NONE => ⟨0⟩
    | .FEE_BASIS_GAS limit _ => limit
  contractEncode := fun _ _ address value =>
    "0xa9059cbb".toList ++ List.replicate value '1' ++ '0' :: address
  transactionRlpEncode := fun tx network type =>
    [network, tx.nonce, tx.amount.valueInWEI, tx.gasLimit.amountOfGas,
      tx.gasPrice.etherPerGas.valueInWEI,
      if type = .RLP_TYPE_TRANSACTION_UNSIGNED then 0 else 1]
  accountSignBytes := fun account _ type bytes paperKey =>
    ⟨type, account :: paperKey.length :: bytes⟩
  accountSignBytesWithPrivateKey := fun account _ type bytes privateKey =>
    ⟨type, account :: privateKey.secret.length :: bytes⟩
  transactionCompare := fun _ a b =>
    if a < b then .ETHEREUM_COMPARISON_LT
    else if a = b then .ETHEREUM_COMPARISON_EQ else .ETHEREUM_COMPARISON_GT
  logCompare := fun _ a b =>
    if a < b then .ETHEREUM_COMPARISON_GT
    else if a = b then .ETHEREUM_COMPARISON_EQ else .ETHEREUM_COMPARISON_LT
  transactionGetFee := fun tx overflow =>
    (⟨(tx.gasPrice.etherPerGas.valueInWEI * tx.gasLimit.amountOfGas) % 2 ^ 256⟩,
     if overflow.isSome then
       some (if tx.gasPrice.etherPerGas.valueInWEI * tx.gasLimit.amountOfGas < 2 ^ 256 then 0
             else 1)
     else overflow)

/-- A sample observed transaction, included at block 100. -/
def txIncludedAt100 : BREthereumTransactionRecord where
  sourceAddress := addressA
  targetAddress := addressB
  amount := ⟨5⟩
  gasPrice := ⟨⟨1⟩⟩
  gasLimit := ⟨21000⟩
  data := []
  nonce := 4
  signature := some ⟨.SIGNATURE_TYPE_RECOVERABLE, [1, 2, 3]⟩
  status :=
    { type := .TRANSACTION_STATUS_INCLUDED
      included :=
        { gasUsed := ⟨21000⟩, blockHash := ⟨List.replicate 32 9⟩, blockNumber := 100,
          transactionIndex := 3 }
      erroredDetail := [] }

/-- A sample observed transaction that failed on chain. -/
def txErrored : BREthereumTransactionRecord :=
  { txIncludedAt100 with
    status :=
      { type := .TRANSACTION_STATUS_ERRORED
        included := StatusIncluded.zero
        erroredDetail := "out of gas".toList } }

/-- A sample memory: two observed transactions (handles 1 and 2), one log (handle 3), no
transfer yet, every nonce counter at 7. -/
def sampleMemory : Memory where
  transfers := fun _ => none
  transactions := fun p =>
    if p = 1 then some txIncludedAt100 else if p = 2 then some txErrored else none
  logs := fun p => if p = 3 then some ⟨txIncludedAt100.status⟩ else none
  nonces := fun _ _ => 7
  brk := 3

/-- Every live transfer keeps a C string inside its reason array: the array has its
`TRANSFER_STATUS_REASON_BYTES + 1` cells and one of them is `NUL`. -/
def ReasonTerminated (m : Memory) : Prop :=
  ∀ p t, m.transfers p = some t →
    t.status.reason.length = TRANSFER_STATUS_REASON_BYTES + 1 ∧ NUL ∈ t.status.reason

/-- The sample memory after `transferCreateWithTransaction` on the included transaction:
the new transfer has handle 4. -/
def memoryIncluded : Memory :=
  match transferCreateWithTransaction sampleMemory 1 with
  | .ok created => created.1
  | .error _ => sampleMemory

/-- The record of the transfer built from the sample included transaction. -/
def transferIncludedAt100 : BREthereumTransferRecord where
  sourceAddress := addressA
  targetAddress := addressB
  amount := .ether ⟨5⟩
  feeBasis := .FEE_BASIS_GAS ⟨21000⟩ ⟨⟨1⟩⟩
  gasEstimate := ⟨0⟩
  originatingTransaction := 0
  basis := { type := .TRANSFER_BASIS_TRANSACTION, u := 1 }
  status :=
    { type := .TRANSFER_STATUS_INCLUDED
      included := { StatusIncluded.zero with blockNumber := 100 }
      reason := List.replicate 57 NUL }

/-- The sample memory after `transferCreateWithTransaction` on the errored transaction:
the new transfer has handle 4. -/
def memoryErrored : Memory :=
  match transferCreateWithTransaction sampleMemory 2 with
  | .ok created => created.1
  | .error _ => sampleMemory

/-- The record of the transfer built from the sample errored transaction. -/
def transferErrored : BREthereumTransferRecord :=
  { transferIncludedAt100 with
    basis := { type := .TRANSFER_BASIS_TRANSACTION, u := 2 }
    status :=
      { type := .TRANSFER_STATUS_ERRORED
        included := StatusIncluded.zero
        reason := UNKNOWN_FOR_NOW ++ List.replicate 39 NUL ++ [NUL] } }

/-- A decoder for the call data of the sample encoder: the characters of the address
argument and the integer argument. -/
def sampleContractDecode (data : List Char) : Option (List Char × Nat) :=
  let body := data.drop 10
  some ((body.dropWhile (fun ch => ch == '1')).drop 1,
        (body.takeWhile (fun ch => ch == '1')).length)

/-- The nonce stage of a sign call, on the record of the originating transaction: an
unassigned nonce becomes the counter of (account, address), an assigned one stays. -/
def nonceStageRecord (m : Memory) (account : BREthereumAccount) (address : BREthereumAddress)
    (tx : BREthereumTransactionRecord) : BREthereumTransactionRecord :=
  if TRANSACTION_NONCE_IS_NOT_ASSIGNED = tx.nonce then
    { tx with nonce := m.nonces account address }
  else tx

/-- The nonce stage of a sign call, on the counters: fetching moves the counter of
(account, address) one further, and happens only for an unassigned nonce. -/
def nonceStageCounters (m : Memory) (account : BREthereumAccount) (address : BREthereumAddress)
    (tx : BREthereumTransactionRecord) : BREthereumAccount → BREthereumAddress → Nat :=
  if TRANSACTION_NONCE_IS_NOT_ASSIGNED = tx.nonce then
    (accountGetThenIncrementAddressNonce m account address).2.nonces
  else m.nonces

/-- The sample memory after the send intent "A sends 1 ether to B at gas (21000, 1)":
the transfer has handle 4 and its originating transaction handle 5. -/
def memorySendIntent : Memory :=
  match transferCreate sampleCollaborators sampleMemory addressA addressB
      (amountCreateEther ⟨10 ^ 18⟩) (.FEE_BASIS_GAS ⟨21000⟩ ⟨⟨1⟩⟩) with
  | .ok created => created.1
  | .error _ => sampleMemory

/-- The record of the sample send-intent transfer. -/
def transferSendIntent : BREthereumTransferRecord where
  sourceAddress := addressA
  targetAddress := addressB
  amount := .ether ⟨10 ^ 18⟩
  feeBasis := .FEE_BASIS_GAS ⟨21000⟩ ⟨⟨1⟩⟩
  gasEstimate := ⟨0⟩
  originatingTransaction := 5
  basis := { type := .TRANSFER_BASIS_TRANSACTION, u := 0 }
  status := BREthereumTransferStatus.zero

/-- The record of the originating transaction of the sample send-intent transfer. -/
def txSendIntent : BREthereumTransactionRecord where
  sourceAddress := addressA
  targetAddress := addressB
  amount := ⟨10 ^ 18⟩
  gasPrice := ⟨⟨1⟩⟩
  gasLimit := ⟨21000⟩
  data := []
  nonce := 18446744073709551615
  signature := none
  status := BREthereumTransactionStatus.zero

/-- The sample send-intent memory with every nonce counter at `UINT64_MAX`. -/
def memoryCounterAtMax : Memory :=
  { memorySendIntent with nonces := fun _ _ => UINT64_MAX }

/-- Sample collaborators whose signers fail: whatever they are asked, they hand back an
empty signature of the wrong kind. -/
def failingSigners : Collaborators :=
  { sampleCollaborators with
    accountSignBytes := fun _ _ _ _ _ => ⟨.SIGNATURE_TYPE_FOO, []⟩
    accountSignBytesWithPrivateKey := fun _ _ _ _ _ => ⟨.SIGNATURE_TYPE_FOO, []⟩ }

/-- The sample memory with two transfers: handle 4 built from the included transaction,
handle 5 built from the log (handle 3) for token 9. -/
def memoryTwoKinds : Memory :=
  match transferCreateWithLog memoryIncluded 3 9 with
  | .ok created => created.1
  | .error _ => memoryIncluded

/-- The record of the sample transfer built from the log. -/
def transferFromLog : BREthereumTransferRecord where
  sourceAddress := EMPTY_ADDRESS_INIT
  targetAddress := EMPTY_ADDRESS_INIT
  amount := .tokenQuantity ⟨9, 0⟩
  feeBasis := .FEE_BASIS_NONE
  gasEstimate := ⟨0⟩
  originatingTransaction := 0
  basis := { type := .TRANSFER_BASIS_LOG, u := 3 }
  status := BREthereumTransferStatus.zero

/-! ## Theorems -/

/-! ### Memory -/

@[simp] theorem Memory.setTransfer_transfers_same (m : Memory) (p : BREthereumTransfer)
    (r : Option BREthereumTransferRecord) : (m.setTransfer p r).transfers p = r := by
  simp [Memory.setTransfer]

theorem Memory.setTransfer_transfers_other (m : Memory) (p q : BREthereumTransfer)
    (r : Option BREthereumTransferRecord) (h : q ≠ p) :
    (m.setTransfer p r).transfers q = m.transfers q := by
  simp [Memory.setTransfer, h]

@[simp] theorem Memory.setTransfer_transactions (m : Memory) (p : BREthereumTransfer)
    (r : Option BREthereumTransferRecord) : (m.setTransfer p r).transactions = m.transactions :=
  rfl

@[simp] theorem Memory.setTransfer_logs (m : Memory) (p : BREthereumTransfer)
    (r : Option BREthereumTransferRecord) : (m.setTransfer p r).logs = m.logs :=
  rfl

@[simp] theorem Memory.setTransfer_nonces (m : Memory) (p : BREthereumTransfer)
    (r : Option BREthereumTransferRecord) : (m.setTransfer p r).nonces = m.nonces :=
  rfl

@[simp] theorem Memory.setTransfer_brk (m : Memory) (p : BREthereumTransfer)
    (r : Option BREthereumTransferRecord) : (m.setTransfer p r).brk = m.brk :=
  rfl

@[simp] theorem Memory.setTransaction_brk (m : Memory) (p : BREthereumTransaction)
    (r : Option BREthereumTransactionRecord) : (m.setTransaction p r).brk = m.brk :=
  rfl

@[simp] theorem Memory.setTransaction_transactions_same (m : Memory) (p : BREthereumTransaction)
    (r : Option BREthereumTransactionRecord) : (m.setTransaction p r).transactions p = r := by
  simp [Memory.setTransaction]

theorem Memory.setTransaction_transactions_other (m : Memory) (p q : BREthereumTransaction)
    (r : Option BREthereumTransactionRecord) (h : q ≠ p) :
    (m.setTransaction p r).transactions q = m.transactions q := by
  simp [Memory.setTransaction, h]

@[simp] theorem Memory.setTransaction_transfers (m : Memory) (p : BREthereumTransaction)
    (r : Option BREthereumTransactionRecord) : (m.setTransaction p r).transfers = m.transfers :=
  rfl

@[simp] theorem Memory.setTransaction_logs (m : Memory) (p : BREthereumTransaction)
    (r : Option BREthereumTransactionRecord) : (m.setTransaction p r).logs = m.logs :=
  rfl

@[simp] theorem Memory.setTransaction_nonces (m : Memory) (p : BREthereumTransaction)
    (r : Option BREthereumTransactionRecord) : (m.setTransaction p r).nonces = m.nonces :=
  rfl

/-! ### Status of a transfer built from a transaction -/

/-- The placeholder fits the reason array: the copy succeeds and the array then holds
the placeholder as a C string. -/
theorem strncpy_placeholder :
    ∃ reason,
      strncpy BREthereumTransferStatus.zero.reason UNKNOWN_FOR_NOW TRANSFER_STATUS_REASON_BYTES
        = .ok reason ∧
      cstring reason = UNKNOWN_FOR_NOW ∧ strdup reason = .ok UNKNOWN_FOR_NOW :=
  ⟨UNKNOWN_FOR_NOW ++ List.replicate 40 NUL, rfl, by decide, rfl⟩

/-- C1: for every observed transaction, `transferCreateWithTransaction` returns a transfer
whose status follows the transaction's: Submitted for Unknown, Queued and Pending;
Included with the transaction's block number and every other included field zero for
Included (then `transferHasStatusType (Included)` is true and
`transferExtractStatusIncluded` outputs that block number); Errored with the placeholder
"Unknown (for now)" for Errored (then `transferHasStatusType (Errored)` is true and
`transferExtractStatusError` outputs the placeholder). -/
theorem transferCreateWithTransaction_status (m : Memory) (transaction : BREthereumTransaction)
    (tx : BREthereumTransactionRecord) (h : m.transactions transaction = some tx) :
    ∃ m1 transfer t,
      transferCreateWithTransaction m transaction = .ok (m1, transfer) ∧
      m1.transfers transfer = some t ∧
      ((tx.status.type = .TRANSACTION_STATUS_UNKNOWN ∨
          tx.status.type = .TRANSACTION_STATUS_QUEUED ∨
          tx.status.type = .TRANSACTION_STATUS_PENDING) →
        t.status.type = .TRANSFER_STATUS_SUBMITTED) ∧
      (tx.status.type = .TRANSACTION_STATUS_INCLUDED →
        t.status.type = .TRANSFER_STATUS_INCLUDED ∧
        t.status.included =
          { StatusIncluded.zero with blockNumber := tx.status.included.blockNumber } ∧
        transferHasStatusType m1 transfer .TRANSFER_STATUS_INCLUDED
          = .ok .ETHEREUM_BOOLEAN_TRUE ∧
        ∀ slot : Nat, ∃ r,
          transferExtractStatusIncluded m1 transfer (some slot) = .ok r ∧
          r.result = 1 ∧ r.blockNumber = some tx.status.included.blockNumber) ∧
      (tx.status.type = .TRANSACTION_STATUS_ERRORED →
        t.status.type = .TRANSFER_STATUS_ERRORED ∧
        cstring t.status.reason = UNKNOWN_FOR_NOW ∧
        transferHasStatusType m1 transfer .TRANSFER_STATUS_ERRORED
          = .ok .ETHEREUM_BOOLEAN_TRUE ∧
        ∀ slot : Option (List Char), ∃ r,
          transferExtractStatusError m1 transfer (some slot) = .ok r ∧
          r.result = 1 ∧ r.reason = some (some UNKNOWN_FOR_NOW)) := by
  obtain ⟨reason, hcopy, hstr, hdup⟩ := strncpy_placeholder
  cases hs : tx.status.type
  all_goals
    simp only [transferCreateWithTransaction, h, hs, transferCreateDetailed,
      Memory.setTransfer_transfers_same, hcopy]
    refine ⟨_, _, _, rfl, Memory.setTransfer_transfers_same _ _ _, ?_⟩
    simp [transferHasStatusType, transferExtractStatusIncluded, transferExtractStatusError,
      AS_ETHEREUM_BOOLEAN, transactionStatusExtractIncluded, BREthereumTransferStatus.zero,
      StatusIncluded.zero, hstr, hdup, hs]

/-- C1 at a concrete input: the sample transaction included at block 100 gives a transfer
that is Included and whose extracted block number is 100. -/
theorem transferCreateWithTransaction_status_witness :
    sampleMemory.transactions 1 = some txIncludedAt100 ∧
    ∃ m1 transfer r,
      transferCreateWithTransaction sampleMemory 1 = .ok (m1, transfer) ∧
      transferHasStatusType m1 transfer .TRANSFER_STATUS_INCLUDED
        = .ok .ETHEREUM_BOOLEAN_TRUE ∧
      transferExtractStatusIncluded m1 transfer (some 0) = .ok r ∧
      r.result = 1 ∧ r.blockNumber = some 100 := by
  refine ⟨rfl, ?_⟩
  obtain ⟨m1, transfer, t, hcreate, -, -, hincluded, -⟩ :=
    transferCreateWithTransaction_status sampleMemory 1 txIncludedAt100 rfl
  obtain ⟨-, -, hhas, hextract⟩ := hincluded rfl
  obtain ⟨r, hr, hresult, hblock⟩ := hextract 0
  exact ⟨m1, transfer, r, hcreate, hhas, hr, hresult, hblock⟩

/-! ### Extraction of the included block number -/

/-- C2: for every transfer and every output cell, `transferExtractStatusIncluded` returns
0 and leaves the cell as it was when the status is not Included, and returns 1 and
writes the block number stored in the Included status otherwise; the memory, and so the
transfer, is left as it was.  With a `NULL` pointer the same value is returned and
nothing is written. -/
theorem transferExtractStatusIncluded_spec (m : Memory) (transfer : BREthereumTransfer)
    (t : BREthereumTransferRecord) (slot : Nat) (h : m.transfers transfer = some t) :
    (t.status.type ≠ .TRANSFER_STATUS_INCLUDED →
      transferExtractStatusIncluded m transfer (some slot)
        = .ok { memory := m, result := 0, blockNumber := some slot } ∧
      transferExtractStatusIncluded m transfer none
        = .ok { memory := m, result := 0, blockNumber := none }) ∧
    (t.status.type = .TRANSFER_STATUS_INCLUDED →
      transferExtractStatusIncluded m transfer (some slot)
        = .ok { memory := m, result := 1, blockNumber := some t.status.included.blockNumber } ∧
      transferExtractStatusIncluded m transfer none
        = .ok { memory := m, result := 1, blockNumber := none }) := by
  constructor
  · intro hne
    have hne1 : ¬ BREthereumTransferStatusType.TRANSFER_STATUS_INCLUDED = t.status.type :=
      fun e => hne e.symm
    simp [transferExtractStatusIncluded, h, hne1]
  · intro he
    simp [transferExtractStatusIncluded, h, he]

/-- C2 at a concrete input: the transfer built from the sample transaction included at
block 100 gives 1 and writes 100 over the 0 in the cell. -/
theorem transferExtractStatusIncluded_spec_witness :
    memoryIncluded.transfers 4 = some transferIncludedAt100 ∧
    transferExtractStatusIncluded memoryIncluded 4 (some 0)
      = .ok { memory := memoryIncluded, result := 1, blockNumber := some 100 } :=
  ⟨rfl, ((transferExtractStatusIncluded_spec memoryIncluded 4 transferIncludedAt100 0 rfl).2
    rfl).1⟩

/-! ### The reason string stays inside its array -/
/-- A character array holding a `NUL` holds a string shorter than the array. -/
theorem cstring_length_lt (buf : List Char) (h : NUL ∈ buf) :
    (cstring buf).length < buf.length := by
  induction buf with
  | nil => simp at h
  | cons a l ih =>
    by_cases ha : a = NUL
    · simp [cstring, ha]
    · have hl : NUL ∈ l := by
        rcases List.mem_cons.mp h with e | e
        · exact absurd e.symm ha
        · exact e
      have := ih hl
      simp only [cstring] at this ⊢
      rw [List.takeWhile_cons_of_pos (by simpa using ha)]
      simpa using this

/-- No character of a C string is `NUL`. -/
theorem cstring_no_NUL (src : List Char) (ch : Char) (hch : ch ∈ cstring src) : ch ≠ NUL := by
  have h := @List.mem_takeWhile_imp _ (fun ch => ch != NUL) src ch hch
  simpa using h

/-- Characters without `NUL`, followed by a `NUL`, are the string of the array. -/
theorem cstring_append_NUL (a b : List Char) (h : ∀ ch ∈ a, ch ≠ NUL) :
    cstring (a ++ NUL :: b) = a := by
  induction a with
  | nil => simp [cstring]
  | cons x l ih =>
    have hx : x ≠ NUL := h x (List.mem_cons_self _ _)
    have hl : ∀ ch ∈ l, ch ≠ NUL := fun ch hch => h ch (List.mem_cons_of_mem _ hch)
    have := ih hl
    simp only [cstring, List.cons_append] at this ⊢
    rw [List.takeWhile_cons_of_pos (by simpa using hx), this]

/-- Copying any string with bound `n` into a zeroed array of `n + 1` cells stays inside the
array, keeps a `NUL` in it, and leaves the string cut at `n` characters. -/
theorem strncpy_calloc (src : List Char) (n : Nat) :
    ∃ buf, strncpy (List.replicate (n + 1) NUL) src n = .ok buf ∧
      buf.length = n + 1 ∧ NUL ∈ buf ∧ cstring buf = (cstring src).take n ∧
      (cstring buf).length ≤ n := by
  have hbody : ∀ ch ∈ (cstring src).take n, ch ≠ NUL := fun ch hch =>
    cstring_no_NUL src ch (List.mem_of_mem_take hch)
  have hlen : ((cstring src).take n).length ≤ n := by simp
  have hstr : cstring ((cstring src).take n ++
      List.replicate (n - ((cstring src).take n).length) NUL
      ++ (List.replicate (n + 1) NUL).drop n) = (cstring src).take n := by
    have h1 : (List.replicate (n + 1) NUL).drop n = [NUL] := by simp
    have h2 : ∀ k, List.replicate k NUL ++ [NUL] = NUL :: List.replicate k NUL := by
      intro k
      induction k with
      | zero => rfl
      | succ k ih => simp [List.replicate_succ, ih]
    rw [h1, List.append_assoc, h2]
    exact cstring_append_NUL _ _ hbody
  refine ⟨(cstring src).take n ++ List.replicate (n - ((cstring src).take n).length) NUL
      ++ (List.replicate (n + 1) NUL).drop n, ?_, ?_, ?_, hstr, ?_⟩
  · simp [strncpy]
  · simp only [List.length_append, List.length_replicate, List.length_drop]
    omega
  · simp
  · rw [hstr]; exact hlen
/-- Setting a nonce touches no transfer record. -/
theorem transactionSetNonce_transfers (m m1 : Memory) (tx : BREthereumTransaction) (n : Nat)
    (h : transactionSetNonce m tx n = .ok m1) : m1.transfers = m.transfers := by
  unfold transactionSetNonce at h
  split at h
  · cases h
  · cases h; rfl

/-- Attaching a signature touches no transfer record. -/
theorem transactionSign_transfers (m m1 : Memory) (tx : BREthereumTransaction)
    (sig : BREthereumSignature)
    (h : transactionSign m tx sig = .ok m1) : m1.transfers = m.transfers := by
  unfold transactionSign at h
  split at h
  · cases h
  · cases h; rfl

/-- `transferSign` touches no transfer record. -/
theorem transferSign_transfers (c : Collaborators) (m m1 : Memory) (transfer : BREthereumTransfer)
    (network : BREthereumNetwork) (account : BREthereumAccount) (address : BREthereumAddress)
    (paperKey : List Char)
    (h : transferSign c m transfer network account address paperKey = .ok m1) :
    m1.transfers = m.transfers := by
  unfold transferSign at h
  split at h
  · cases h
  · split at h
    · cases h
    · split at h
      · cases h
      · rename_i m2 hm2
        have h2 : m2.transfers = m.transfers := by
          split at hm2
          · exact transactionSetNonce_transfers
              (accountGetThenIncrementAddressNonce m account address).2 _ _ _ hm2
          · cases hm2; rfl
        split at h
        · cases h
        · rw [transactionSign_transfers _ _ _ _ h, h2]

/-- `transferSignWithKey` touches no transfer record. -/
theorem transferSignWithKey_transfers (c : Collaborators) (m m1 : Memory)
    (transfer : BREthereumTransfer)
    (network : BREthereumNetwork) (account : BREthereumAccount) (address : BREthereumAddress)
    (privateKey : BRKey)
    (h : transferSignWithKey c m transfer network account address privateKey = .ok m1) :
    m1.transfers = m.transfers := by
  unfold transferSignWithKey at h
  split at h
  · cases h
  · split at h
    · cases h
    · split at h
      · cases h
      · rename_i m2 hm2
        have h2 : m2.transfers = m.transfers := by
          split at hm2
          · exact transactionSetNonce_transfers
              (accountGetThenIncrementAddressNonce m account address).2 _ _ _ hm2
          · cases hm2; rfl
        split at h
        · cases h
        · rw [transactionSign_transfers _ _ _ _ h, h2]

/-- The zeroed reason array has its 57 cells and holds the empty string. -/
theorem reasonTerminated_zero :
    BREthereumTransferStatus.zero.reason.length = TRANSFER_STATUS_REASON_BYTES + 1 ∧
      NUL ∈ BREthereumTransferStatus.zero.reason := by
  decide

/-- Storing a record with a terminated reason keeps the invariant. -/
theorem ReasonTerminated.setTransfer (m : Memory) (p : BREthereumTransfer)
    (r : Option BREthereumTransferRecord) (h : ReasonTerminated m)
    (hr : ∀ t, r = some t →
      t.status.reason.length = TRANSFER_STATUS_REASON_BYTES + 1 ∧ NUL ∈ t.status.reason) :
    ReasonTerminated (m.setTransfer p r) := by
  intro q t hq
  by_cases hqp : q = p
  · subst hqp
    rw [Memory.setTransfer_transfers_same] at hq
    exact hr t hq
  · rw [Memory.setTransfer_transfers_other _ _ _ _ hqp] at hq
    exact h q t hq

/-- The invariant only looks at the transfer records. -/
theorem ReasonTerminated.of_transfers_eq (m m1 : Memory) (h : ReasonTerminated m)
    (e : m1.transfers = m.transfers) : ReasonTerminated m1 := by
  intro q t hq
  rw [e] at hq
  exact h q t hq

/-- `transferCreateDetailed` keeps the invariant. -/
theorem transferCreateDetailed_reasonTerminated (m : Memory)
    (sourceAddress targetAddress : BREthereumAddress)
    (amount : BREthereumAmount) (feeBasis : BREthereumFeeBasis)
    (originatingTransaction : BREthereumTransaction) (h : ReasonTerminated m) :
    ReasonTerminated
      (transferCreateDetailed m sourceAddress targetAddress amount feeBasis
        originatingTransaction).1 := by
  unfold transferCreateDetailed
  apply ReasonTerminated.setTransfer
  · exact ReasonTerminated.of_transfers_eq m _ h rfl
  · intro t ht
    cases ht
    exact reasonTerminated_zero

/-- `transferProvideOriginatingTransaction` keeps the invariant. -/
theorem transferProvideOriginatingTransaction_reasonTerminated (c : Collaborators)
    (m m1 : Memory) (transfer : BREthereumTransfer) (h : ReasonTerminated m)
    (e : transferProvideOriginatingTransaction c m transfer = .ok m1) :
    ReasonTerminated m1 := by
  unfold transferProvideOriginatingTransaction at e
  split at e
  · cases e
  · rename_i t ht
    split at e
    · cases e
    · rename_i m2 hm2
      have h2 : m2.transfers = m.transfers := by
        split at hm2
        · unfold transactionRelease at hm2
          split at hm2
          · cases hm2
          · cases hm2; rfl
        · cases hm2; rfl
      cases e
      apply ReasonTerminated.setTransfer
      · exact ReasonTerminated.of_transfers_eq m _ h (by simp [transactionCreate, h2])
      · intro t1 ht1
        cases ht1
        exact h transfer t ht

/-- The record behind the handle `transferCreateDetailed` returns. -/
theorem transferCreateDetailed_fresh (m : Memory)
    (sourceAddress targetAddress : BREthereumAddress)
    (amount : BREthereumAmount) (feeBasis : BREthereumFeeBasis)
    (originatingTransaction : BREthereumTransaction) :
    (transferCreateDetailed m sourceAddress targetAddress amount feeBasis
        originatingTransaction).1.transfers
      (transferCreateDetailed m sourceAddress targetAddress amount feeBasis
        originatingTransaction).2
    = some { sourceAddress := sourceAddress
             targetAddress := targetAddress
             amount := amount
             feeBasis := feeBasis
             gasEstimate := gasCreate 0
             originatingTransaction := originatingTransaction
             basis := BREthereumTransferBasis.zero
             status := BREthereumTransferStatus.zero } := by
  simp [transferCreateDetailed]

/-- `transferCreateWithTransaction` keeps the invariant. -/
theorem transferCreateWithTransaction_reasonTerminated (m m1 : Memory)
    (transaction : BREthereumTransaction) (transfer : BREthereumTransfer)
    (h : ReasonTerminated m)
    (e : transferCreateWithTransaction m transaction = .ok (m1, transfer)) :
    ReasonTerminated m1 := by
  have hd := transferCreateDetailed_reasonTerminated m
  unfold transferCreateWithTransaction at e
  split at e
  · cases e
  · rename_i tx htx
    simp only [transferCreateDetailed_fresh] at e
    obtain ⟨buf, hbuf, hlen, hmem, -, -⟩ := strncpy_calloc UNKNOWN_FOR_NOW TRANSFER_STATUS_REASON_BYTES
    have hbuf1 : strncpy BREthereumTransferStatus.zero.reason UNKNOWN_FOR_NOW
        TRANSFER_STATUS_REASON_BYTES = .ok buf := hbuf
    simp only [hbuf1] at e
    split at e <;> cases e <;>
      exact ReasonTerminated.setTransfer _ _ _ (hd _ _ _ _ _ h)
        (fun t ht => by cases ht; first | exact reasonTerminated_zero | exact ⟨hlen, hmem⟩)

/-- `transferCreateWithLog` keeps the invariant. -/
theorem transferCreateWithLog_reasonTerminated (m m1 : Memory)
    (log : BREthereumLog) (token : BREthereumToken) (transfer : BREthereumTransfer)
    (h : ReasonTerminated m)
    (e : transferCreateWithLog m log token = .ok (m1, transfer)) :
    ReasonTerminated m1 := by
  have hd := transferCreateDetailed_reasonTerminated m
  unfold transferCreateWithLog at e
  simp only [transferCreateDetailed_fresh] at e
  split at e
  · cases e
  · cases e
    exact ReasonTerminated.setTransfer _ _ _ (hd _ _ _ _ _ h)
      (fun t ht => by cases ht; exact reasonTerminated_zero)

/-- `transferCreate` keeps the invariant. -/
theorem transferCreate_reasonTerminated (c : Collaborators) (m m1 : Memory)
    (sourceAddress targetAddress : BREthereumAddress)
    (amount : BREthereumAmount) (feeBasis : BREthereumFeeBasis) (transfer : BREthereumTransfer)
    (h : ReasonTerminated m)
    (e : transferCreate c m sourceAddress targetAddress amount feeBasis = .ok (m1, transfer)) :
    ReasonTerminated m1 := by
  unfold transferCreate at e
  simp only at e
  split at e
  · cases e
  · rename_i m2 hm2
    cases e
    exact transferProvideOriginatingTransaction_reasonTerminated c _ _ _
      (transferCreateDetailed_reasonTerminated m _ _ _ _ _ h) hm2

/-- `transferRelease` keeps the invariant. -/
theorem transferRelease_reasonTerminated (m m1 : Memory) (transfer : BREthereumTransfer)
    (h : ReasonTerminated m) (e : transferRelease m transfer = .ok m1) :
    ReasonTerminated m1 := by
  unfold transferRelease at e
  split at e
  · cases e; exact h
  · split at e
    · cases e
    · cases e
      exact ReasonTerminated.setTransfer _ _ _ h (fun t ht => by cases ht)

/-- `transferSetGasEstimate` keeps the invariant. -/
theorem transferSetGasEstimate_reasonTerminated (m m1 : Memory) (transfer : BREthereumTransfer)
    (gasEstimate : BREthereumGas)
    (h : ReasonTerminated m) (e : transferSetGasEstimate m transfer gasEstimate = .ok m1) :
    ReasonTerminated m1 := by
  unfold transferSetGasEstimate at e
  split at e
  · cases e
  · rename_i t ht
    cases e
    exact ReasonTerminated.setTransfer _ _ _ h (fun t1 ht1 => by cases ht1; exact h transfer t ht)

/-- Every reachable memory keeps a terminated reason in every transfer. -/
theorem reachable_reasonTerminated (c : Collaborators) (m : Memory) (h : Reachable c m) :
    ReasonTerminated m := by
  induction h with
  | start m h0 => intro p t hp; rw [h0 p] at hp; cases hp
  | outside m m1 _ e ih => exact ReasonTerminated.of_transfers_eq m m1 ih e
  | create m m1 s t a f p _ e ih => exact transferCreate_reasonTerminated c m m1 s t a f p ih e
  | createWithTransaction m m1 tx p _ e ih =>
    exact transferCreateWithTransaction_reasonTerminated m m1 tx p ih e
  | createWithLog m m1 l k p _ e ih =>
    exact transferCreateWithLog_reasonTerminated m m1 l k p ih e
  | release m m1 p _ e ih => exact transferRelease_reasonTerminated m m1 p ih e
  | setGasEstimate m m1 p g _ e ih => exact transferSetGasEstimate_reasonTerminated m m1 p g ih e
  | sign m m1 p n a b k _ e ih =>
    exact ReasonTerminated.of_transfers_eq m m1 ih (transferSign_transfers c m m1 p n a b k e)
  | signWithKey m m1 p n a b k _ e ih =>
    exact ReasonTerminated.of_transfers_eq m m1 ih
      (transferSignWithKey_transfers c m m1 p n a b k e)


/-- C3: for every transfer of a reachable memory, `transferExtractStatusError` returns 0
(and leaves the cell) unless the status is Errored, and otherwise returns 1 with a copy
of the stored reason whose length is at most `TRANSFER_STATUS_REASON_BYTES`; the stored
reason always has a `NUL` inside its `TRANSFER_STATUS_REASON_BYTES + 1` cells; and the
assignment, `strncpy` with that bound into the zeroed array, cuts any input reason at
the bound and never writes outside the array. -/
theorem transferExtractStatusError_bounded (c : Collaborators) (m : Memory)
    (transfer : BREthereumTransfer) (t : BREthereumTransferRecord)
    (slot : Option (List Char)) (hm : Reachable c m) (h : m.transfers transfer = some t) :
    (t.status.type ≠ .TRANSFER_STATUS_ERRORED →
      transferExtractStatusError m transfer (some slot)
        = .ok { memory := m, result := 0, reason := some slot }) ∧
    (t.status.type = .TRANSFER_STATUS_ERRORED →
      ∃ copy,
        transferExtractStatusError m transfer (some slot)
          = .ok { memory := m, result := 1, reason := some (some copy) } ∧
        copy = cstring t.status.reason ∧
        copy.length ≤ TRANSFER_STATUS_REASON_BYTES) ∧
    t.status.reason.length = TRANSFER_STATUS_REASON_BYTES + 1 ∧
    NUL ∈ t.status.reason ∧
    TRANSFER_STATUS_REASON_BYTES = 8 + 32 + 2 * 8 ∧
    ∀ src : List Char, ∃ buf,
      strncpy BREthereumTransferStatus.zero.reason src TRANSFER_STATUS_REASON_BYTES = .ok buf ∧
      buf.length = TRANSFER_STATUS_REASON_BYTES + 1 ∧ NUL ∈ buf ∧
      cstring buf = (cstring src).take TRANSFER_STATUS_REASON_BYTES := by
  obtain ⟨hlen, hmem⟩ := reachable_reasonTerminated c m hm transfer t h
  refine ⟨?_, ?_, hlen, hmem, rfl, ?_⟩
  · intro hne
    have hne1 : ¬ BREthereumTransferStatusType.TRANSFER_STATUS_ERRORED = t.status.type :=
      fun e => hne e.symm
    simp [transferExtractStatusError, h, hne1]
  · intro he
    refine ⟨cstring t.status.reason, ?_, rfl, ?_⟩
    · simp [transferExtractStatusError, h, he, strdup, hmem]
    · have := cstring_length_lt _ hmem
      omega
  · intro src
    obtain ⟨buf, h1, h2, h3, h4, -⟩ := strncpy_calloc src TRANSFER_STATUS_REASON_BYTES
    exact ⟨buf, h1, h2, h3, h4⟩

/-- C3 at a concrete input: the transfer built from the sample errored transaction is
reachable, and its extracted reason is the 17 characters of the placeholder. -/
theorem transferExtractStatusError_bounded_witness :
    Reachable sampleCollaborators memoryErrored ∧
    memoryErrored.transfers 4 = some transferErrored ∧
    ∃ copy,
      transferExtractStatusError memoryErrored 4 (some none)
        = .ok { memory := memoryErrored, result := 1, reason := some (some copy) } ∧
      copy = cstring transferErrored.status.reason ∧
      copy.length ≤ TRANSFER_STATUS_REASON_BYTES :=
  have hm : Reachable sampleCollaborators memoryErrored :=
    Reachable.createWithTransaction sampleMemory memoryErrored 2 4
      (Reachable.start sampleMemory (fun _ => rfl)) rfl
  ⟨hm, rfl,
    (transferExtractStatusError_bounded sampleCollaborators memoryErrored 4 transferErrored
      none hm rfl).2.1 rfl⟩

/-! ### The originating transaction of a send intent -/

/-- What `transferCreate` leaves: the transfer has handle `m.brk + 1`, its originating
transaction handle `m.brk + 2`, and both records are as the synthesis builds them;
nothing else changes but the allocation mark. -/
theorem transferCreate_eq (c : Collaborators) (m : Memory)
    (sourceAddress targetAddress : BREthereumAddress) (amount : BREthereumAmount)
    (feeBasis : BREthereumFeeBasis) :
    ∃ m1,
      transferCreate c m sourceAddress targetAddress amount feeBasis = .ok (m1, m.brk + 1) ∧
      m1.transfers (m.brk + 1) =
        some { detailedRecord sourceAddress targetAddress amount feeBasis 0 with
                 originatingTransaction := m.brk + 2 } ∧
      m1.transactions (m.brk + 2) =
        some (synthesizedRecord c
          (detailedRecord sourceAddress targetAddress amount feeBasis 0)) ∧
      (∀ q, q ≠ m.brk + 1 → m1.transfers q = m.transfers q) ∧
      (∀ q, q ≠ m.brk + 2 → m1.transactions q = m.transactions q) ∧
      m1.logs = m.logs ∧ m1.nonces = m.nonces ∧ m1.brk = m.brk + 2 := by
  refine ⟨?m1, ?h1, ?h2, ?h3, ?h4, ?h5, ?h6, ?h7, ?h8⟩
  case h1 =>
    simp only [transferCreate, transferProvideOriginatingTransaction,
      transferCreateDetailed_fresh, ne_eq, not_true_eq_false, if_false]
    exact rfl
  case h2 => simp [transferCreateDetailed, transactionCreate, detailedRecord]
  case h3 =>
    simp [transferCreateDetailed, transactionCreate, detailedRecord, synthesizedRecord,
      Memory.setTransfer]
  case h4 =>
    intro q hq
    simp [transferCreateDetailed, transactionCreate, Memory.setTransfer, hq]
  case h5 =>
    intro q hq
    simp [transferCreateDetailed, transactionCreate, Memory.setTransfer, hq]
  case h6 => rfl
  case h7 => rfl
  case h8 => rfl

/-- C4: for every send intent whose amount is ether, `transferCreate` returns a transfer
whose originating transaction has the transfer's target address as target, the ether
amount as value, the transfer's source as source, and no call data. -/
theorem transferCreate_ether_originatingTransaction (c : Collaborators) (m : Memory)
    (sourceAddress targetAddress : BREthereumAddress) (ether : BREthereumEther)
    (feeBasis : BREthereumFeeBasis) :
    ∃ m1 transfer t tx,
      transferCreate c m sourceAddress targetAddress (amountCreateEther ether) feeBasis
        = .ok (m1, transfer) ∧
      m1.transfers transfer = some t ∧
      t.sourceAddress = sourceAddress ∧ t.targetAddress = targetAddress ∧
      t.amount = amountCreateEther ether ∧
      transferGetOriginatingTransaction m1 transfer = .ok t.originatingTransaction ∧
      t.originatingTransaction ≠ 0 ∧
      m1.transactions t.originatingTransaction = some tx ∧
      tx.targetAddress = t.targetAddress ∧
      tx.amount = ether ∧
      tx.sourceAddress = t.sourceAddress ∧
      tx.data = [] := by
  obtain ⟨m1, hcreate, htransfer, htx, -⟩ :=
    transferCreate_eq c m sourceAddress targetAddress (amountCreateEther ether) feeBasis
  refine ⟨m1, _, _, _, hcreate, htransfer, rfl, rfl, rfl, ?_, ?_, htx, rfl, rfl, rfl, rfl⟩
  · simp [transferGetOriginatingTransaction, htransfer]
  · simp

/-! ### Hexadecimal form of an address -/

/-- A hexadecimal digit reads back as its value. -/
theorem hexValue_hexChar (n : Nat) (h : n < 16) : hexValue (hexChar n) = n := by
  interval_cases n <;> rfl

/-- The hexadecimal form of a byte string reads back as the byte string. -/
theorem decodeHex_encodeHex (bytes : List Nat) (h : ∀ b ∈ bytes, b < 256) :
    decodeHex (encodeHex bytes) = bytes := by
  induction bytes with
  | nil => rfl
  | cons b bs ih =>
    have hb : b < 256 := h b (List.mem_cons_self _ _)
    have hbs : ∀ x ∈ bs, x < 256 := fun x hx => h x (List.mem_cons_of_mem _ hx)
    simp only [encodeHex, decodeHex, ih hbs]
    rw [hexValue_hexChar _ (Nat.mod_lt _ (by decide)),
      hexValue_hexChar _ (Nat.mod_lt _ (by decide))]
    congr 1
    omega

/-- The characters handed to the encoder are the hexadecimal form of the address: the
string without its first two characters, `0x`. -/
theorem addressFillEncodedString_drop (address : BREthereumAddress) :
    ((addressFillEncodedString address).drop 2).take ((addressFillEncodedString address).length - 2)
      = encodeHex address.bytes ∧
    (addressFillEncodedString address).take 2 = ['0', 'x'] := by
  simp [addressFillEncodedString]

/-- C5: for every send intent whose amount is the token quantity (T, v), `transferCreate`
returns a transfer whose originating transaction has T's contract address as target,
value zero, and as call data the contract encoder's ERC20 transfer encoding of the hex
form of the transfer's target address (without its two-character mark `0x`) and of v;
any decoder that inverts the encoder gives back that hex form, which stands for the
target address, and v. -/
theorem transferCreate_token_originatingTransaction (c : Collaborators) (m : Memory)
    (sourceAddress targetAddress : BREthereumAddress) (token : BREthereumToken) (v : Nat)
    (feeBasis : BREthereumFeeBasis) :
    ∃ m1 transfer t tx,
      transferCreate c m sourceAddress targetAddress
        (amountCreateToken (createTokenQuantity token v)) feeBasis = .ok (m1, transfer) ∧
      m1.transfers transfer = some t ∧
      t.targetAddress = targetAddress ∧
      t.originatingTransaction ≠ 0 ∧
      m1.transactions t.originatingTransaction = some tx ∧
      tx.targetAddress = c.tokenGetAddressRaw token ∧
      tx.amount = etherCreateZero ∧
      tx.data = c.contractEncode .contractERC20 .functionERC20Transfer
        (encodeHex targetAddress.bytes) v ∧
      addressFillEncodedString targetAddress = '0' :: 'x' :: encodeHex targetAddress.bytes ∧
      ∀ decode : List Char → Option (List Char × Nat),
        (∀ a n, decode (c.contractEncode .contractERC20 .functionERC20Transfer a n)
          = some (a, n)) →
        decode tx.data = some (encodeHex targetAddress.bytes, v) ∧
        ((∀ b ∈ targetAddress.bytes, b < 256) →
          decodeHex (encodeHex targetAddress.bytes) = targetAddress.bytes) := by
  obtain ⟨m1, hcreate, htransfer, htx, -⟩ :=
    transferCreate_eq c m sourceAddress targetAddress
      (amountCreateToken (createTokenQuantity token v)) feeBasis
  have hdata : (synthesizedRecord c (detailedRecord sourceAddress targetAddress
      (amountCreateToken (createTokenQuantity token v)) feeBasis 0)).data
      = c.contractEncode .contractERC20 .functionERC20Transfer
          (encodeHex targetAddress.bytes) v := by
    simp only [synthesizedRecord, detailedRecord, transferProvideOriginatingTransactionData,
      amountCreateToken, createTokenQuantity, (addressFillEncodedString_drop targetAddress).1]
  refine ⟨m1, _, _, _, hcreate, htransfer, rfl, ?_, htx, rfl, rfl, hdata, rfl, ?_⟩
  · simp
  · intro decode hdecode
    refine ⟨?_, decodeHex_encodeHex _⟩
    rw [hdata, hdecode]

/-- The sample decoder inverts the sample encoder. -/
theorem sampleContractDecode_contractEncode (a : List Char) (n : Nat) :
    sampleContractDecode
      (sampleCollaborators.contractEncode .contractERC20 .functionERC20Transfer a n)
      = some (a, n) := by
  have hdrop : ∀ l : List Char, ("0xa9059cbb".toList ++ l).drop 10 = l := fun l => rfl
  have htake : ∀ k : Nat, (List.replicate k '1' ++ '0' :: a).takeWhile (fun ch => ch == '1')
      = List.replicate k '1' := by
    intro k
    induction k with
    | zero => rfl
    | succ k ih => simp [List.replicate_succ, ih]
  have hdropWhile : ∀ k : Nat,
      (List.replicate k '1' ++ '0' :: a).dropWhile (fun ch => ch == '1') = '0' :: a := by
    intro k
    induction k with
    | zero => rfl
    | succ k ih => simp [List.replicate_succ, ih]
  simp only [sampleContractDecode, sampleCollaborators, List.append_assoc, hdrop, htake,
    hdropWhile, List.length_replicate, List.drop_succ_cons, List.drop_zero]

/-- C5 at a concrete input: sending 3 units of token 9 from `A` to `B` with the sample
encoder; the sample decoder reads the call data back as the hex form of `B` and 3. -/
theorem transferCreate_token_originatingTransaction_witness :
    ∃ m1 transfer t tx,
      transferCreate sampleCollaborators sampleMemory addressA addressB
        (amountCreateToken (createTokenQuantity 9 3)) .FEE_BASIS_NONE = .ok (m1, transfer) ∧
      m1.transfers transfer = some t ∧
      m1.transactions t.originatingTransaction = some tx ∧
      tx.targetAddress = ⟨List.replicate 20 9⟩ ∧
      tx.amount = etherCreateZero ∧
      sampleContractDecode tx.data = some (encodeHex addressB.bytes, 3) ∧
      decodeHex (encodeHex addressB.bytes) = addressB.bytes := by
  obtain ⟨m1, transfer, t, tx, h1, h2, -, -, h3, h4, h5, -, -, h6⟩ :=
    transferCreate_token_originatingTransaction sampleCollaborators sampleMemory addressA
      addressB 9 3 .FEE_BASIS_NONE
  obtain ⟨h7, h8⟩ := h6 sampleContractDecode sampleContractDecode_contractEncode
  exact ⟨m1, transfer, t, tx, h1, h2, h3, h4, h5, h7, h8 (by decide)⟩

/-! ### Signing -/

/-- What `transferSign` leaves when the transfer and its originating transaction are
live: the originating transaction after the nonce stage, with the signature the signer
returned for its unsigned serialization; the counters after the nonce stage; everything
else as before. -/
theorem transferSign_eq (c : Collaborators) (m : Memory) (transfer : BREthereumTransfer)
    (network : BREthereumNetwork) (account : BREthereumAccount) (address : BREthereumAddress)
    (paperKey : List Char) (t : BREthereumTransferRecord) (tx : BREthereumTransactionRecord)
    (ht : m.transfers transfer = some t)
    (htx : m.transactions t.originatingTransaction = some tx) :
    ∃ m1,
      transferSign c m transfer network account address paperKey = .ok m1 ∧
      m1.transactions t.originatingTransaction =
        some { nonceStageRecord m account address tx with
                 signature := some (c.accountSignBytes account address
                   .SIGNATURE_TYPE_RECOVERABLE
                   (c.transactionRlpEncode (nonceStageRecord m account address tx) network
                     .RLP_TYPE_TRANSACTION_UNSIGNED)
                   paperKey) } ∧
      m1.nonces = nonceStageCounters m account address tx ∧
      (∀ q, q ≠ t.originatingTransaction → m1.transactions q = m.transactions q) ∧
      m1.transfers = m.transfers ∧ m1.logs = m.logs ∧ m1.brk = m.brk := by
  by_cases hn : TRANSACTION_NONCE_IS_NOT_ASSIGNED = tx.nonce
  · refine ⟨?m1, ?h1, ?h2, ?h3, ?h4, ?h5, ?h6, ?h7⟩
    case h1 =>
      simp only [transferSign, ht, transactionGetNonce, htx, hn, if_true,
        accountGetThenIncrementAddressNonce, transactionSetNonce, transactionRlpEncode,
        Memory.setTransaction_transactions_same, transactionSign]
      exact rfl
    case h2 => simp [nonceStageRecord, hn]
    case h3 => simp [nonceStageCounters, hn, accountGetThenIncrementAddressNonce]
    case h4 =>
      intro q hq
      simp [Memory.setTransaction, hq]
    case h5 => rfl
    case h6 => rfl
    case h7 => rfl
  · refine ⟨?km1, ?kh1, ?kh2, ?kh3, ?kh4, ?kh5, ?kh6, ?kh7⟩
    case kh1 =>
      simp only [transferSign, ht, transactionGetNonce, htx, hn, if_false,
        transactionRlpEncode, transactionSign]
      exact rfl
    case kh2 => simp [nonceStageRecord, hn]
    case kh3 => simp [nonceStageCounters, hn]
    case kh4 =>
      intro q hq
      simp [Memory.setTransaction, hq]
    case kh5 => rfl
    case kh6 => rfl
    case kh7 => rfl

/-- What `transferSignWithKey` leaves when the transfer and its originating transaction are
live: the originating transaction after the nonce stage, with the signature the signer
returned for its unsigned serialization; the counters after the nonce stage; everything
else as before. -/
theorem transferSignWithKey_eq (c : Collaborators) (m : Memory) (transfer : BREthereumTransfer)
    (network : BREthereumNetwork) (account : BREthereumAccount) (address : BREthereumAddress)
    (privateKey : BRKey) (t : BREthereumTransferRecord) (tx : BREthereumTransactionRecord)
    (ht : m.transfers transfer = some t)
    (htx : m.transactions t.originatingTransaction = some tx) :
    ∃ m1,
      transferSignWithKey c m transfer network account address privateKey = .ok m1 ∧
      m1.transactions t.originatingTransaction =
        some { nonceStageRecord m account address tx with
                 signature := some (c.accountSignBytesWithPrivateKey account address
                   .SIGNATURE_TYPE_RECOVERABLE
                   (c.transactionRlpEncode (nonceStageRecord m account address tx) network
                     .RLP_TYPE_TRANSACTION_UNSIGNED)
                   privateKey) } ∧
      m1.nonces = nonceStageCounters m account address tx ∧
      (∀ q, q ≠ t.originatingTransaction → m1.transactions q = m.transactions q) ∧
      m1.transfers = m.transfers ∧ m1.logs = m.logs ∧ m1.brk = m.brk := by
  by_cases hn : TRANSACTION_NONCE_IS_NOT_ASSIGNED = tx.nonce
  · refine ⟨?m1, ?h1, ?h2, ?h3, ?h4, ?h5, ?h6, ?h7⟩
    case h1 =>
      simp only [transferSignWithKey, ht, transactionGetNonce, htx, hn, if_true,
        accountGetThenIncrementAddressNonce, transactionSetNonce, transactionRlpEncode,
        Memory.setTransaction_transactions_same, transactionSign]
      exact rfl
    case h2 => simp [nonceStageRecord, hn]
    case h3 => simp [nonceStageCounters, hn, accountGetThenIncrementAddressNonce]
    case h4 =>
      intro q hq
      simp [Memory.setTransaction, hq]
    case h5 => rfl
    case h6 => rfl
    case h7 => rfl
  · refine ⟨?km1, ?kh1, ?kh2, ?kh3, ?kh4, ?kh5, ?kh6, ?kh7⟩
    case kh1 =>
      simp only [transferSignWithKey, ht, transactionGetNonce, htx, hn, if_false,
        transactionRlpEncode, transactionSign]
      exact rfl
    case kh2 => simp [nonceStageRecord, hn]
    case kh3 => simp [nonceStageCounters, hn]
    case kh4 =>
      intro q hq
      simp [Memory.setTransaction, hq]
    case kh5 => rfl
    case kh6 => rfl
    case kh7 => rfl

/-- After the nonce stage the nonce is assigned, as long as the counter handed out is not
the sentinel itself. -/
theorem nonceStageRecord_assigned (m : Memory) (account : BREthereumAccount)
    (address : BREthereumAddress) (tx : BREthereumTransactionRecord)
    (hcounter : tx.nonce = TRANSACTION_NONCE_IS_NOT_ASSIGNED →
      m.nonces account address < UINT64_MAX) :
    TRANSACTION_NONCE_IS_NOT_ASSIGNED ≠ (nonceStageRecord m account address tx).nonce := by
  unfold nonceStageRecord
  split
  · rename_i hn
    have := hcounter hn.symm
    simp only [TRANSACTION_NONCE_IS_NOT_ASSIGNED]
    omega
  · assumption

/-- The nonce stage does nothing to an assigned nonce. -/
theorem nonceStage_of_assigned (m : Memory) (account : BREthereumAccount)
    (address : BREthereumAddress) (tx : BREthereumTransactionRecord)
    (h : TRANSACTION_NONCE_IS_NOT_ASSIGNED ≠ tx.nonce) :
    nonceStageRecord m account address tx = tx ∧
      nonceStageCounters m account address tx = m.nonces := by
  simp [nonceStageRecord, nonceStageCounters, h]

/-- C7: for a transfer whose originating transaction has the unassigned nonce,
`transferSign` and `transferSignWithKey` assign the current counter of (account,
address) as nonce and move that counter one further; the signer gets the unsigned RLP
serialization, for the given network, of the originating transaction carrying that
nonce, and is asked for a recoverable signature; the signature it returns is the one
attached.  The signed transaction depends on the memory only through the record of the
originating transaction and the counter: the same inputs give the same result. -/
theorem transferSign_stages (c : Collaborators) (m : Memory) (transfer : BREthereumTransfer)
    (network : BREthereumNetwork) (account : BREthereumAccount) (address : BREthereumAddress)
    (paperKey : List Char) (privateKey : BRKey)
    (t : BREthereumTransferRecord) (tx : BREthereumTransactionRecord)
    (ht : m.transfers transfer = some t)
    (htx : m.transactions t.originatingTransaction = some tx)
    (hn : tx.nonce = TRANSACTION_NONCE_IS_NOT_ASSIGNED) :
    ∃ m1 m2,
      transferSign c m transfer network account address paperKey = .ok m1 ∧
      transferSignWithKey c m transfer network account address privateKey = .ok m2 ∧
      m1.transactions t.originatingTransaction =
        some { tx with
                 nonce := m.nonces account address
                 signature := some (c.accountSignBytes account address
                   .SIGNATURE_TYPE_RECOVERABLE
                   (c.transactionRlpEncode { tx with nonce := m.nonces account address }
                     network .RLP_TYPE_TRANSACTION_UNSIGNED)
                   paperKey) } ∧
      m2.transactions t.originatingTransaction =
        some { tx with
                 nonce := m.nonces account address
                 signature := some (c.accountSignBytesWithPrivateKey account address
                   .SIGNATURE_TYPE_RECOVERABLE
                   (c.transactionRlpEncode { tx with nonce := m.nonces account address }
                     network .RLP_TYPE_TRANSACTION_UNSIGNED)
                   privateKey) } ∧
      m1.nonces account address = (m.nonces account address + 1) % 2 ^ 64 ∧
      m2.nonces account address = (m.nonces account address + 1) % 2 ^ 64 ∧
      (m.nonces account address < UINT64_MAX →
        m1.nonces account address = m.nonces account address + 1 ∧
        m2.nonces account address = m.nonces account address + 1) ∧
      (∀ a b, ¬ (a = account ∧ b = address) →
        m1.nonces a b = m.nonces a b ∧ m2.nonces a b = m.nonces a b) ∧
      ∀ (m' : Memory) (transfer' : BREthereumTransfer) (t' : BREthereumTransferRecord),
        m'.transfers transfer' = some t' →
        m'.transactions t'.originatingTransaction = some tx →
        m'.nonces account address = m.nonces account address →
        ∃ m1' m2',
          transferSign c m' transfer' network account address paperKey = .ok m1' ∧
          transferSignWithKey c m' transfer' network account address privateKey = .ok m2' ∧
          m1'.transactions t'.originatingTransaction
            = m1.transactions t.originatingTransaction ∧
          m2'.transactions t'.originatingTransaction
            = m2.transactions t.originatingTransaction := by
  obtain ⟨m1, h1, h1tx, h1n, -⟩ :=
    transferSign_eq c m transfer network account address paperKey t tx ht htx
  obtain ⟨m2, h2, h2tx, h2n, -⟩ :=
    transferSignWithKey_eq c m transfer network account address privateKey t tx ht htx
  have hrec : ∀ m' : Memory, m'.nonces account address = m.nonces account address →
      nonceStageRecord m' account address tx = { tx with nonce := m.nonces account address } := by
    intro m' e
    simp [nonceStageRecord, hn, e]
  have hcnt : nonceStageCounters m account address tx = fun a b =>
      if a = account ∧ b = address then (m.nonces account address + 1) % 2 ^ 64
      else m.nonces a b := by
    simp [nonceStageCounters, hn, accountGetThenIncrementAddressNonce]
  rw [hrec m rfl] at h1tx h2tx
  rw [hcnt] at h1n h2n
  refine ⟨m1, m2, h1, h2, h1tx, h2tx, ?_, ?_, ?_, ?_, ?_⟩
  · simp [h1n]
  · simp [h2n]
  · intro hlt
    have hlt1 : m.nonces account address + 1 < 2 ^ 64 := by
      simp only [UINT64_MAX] at hlt
      omega
    rw [h1n, h2n]
    simp only [and_self, if_true, Nat.mod_eq_of_lt hlt1]
  · intro a b hab
    simp [h1n, h2n, hab]
  · intro m' transfer' t' ht' htx' hcounter'
    obtain ⟨m1', h1', h1tx', -⟩ :=
      transferSign_eq c m' transfer' network account address paperKey t' tx ht' htx'
    obtain ⟨m2', h2', h2tx', -⟩ :=
      transferSignWithKey_eq c m' transfer' network account address privateKey t' tx ht' htx'
    rw [hrec m' hcounter'] at h1tx' h2tx'
    exact ⟨m1', m2', h1', h2', h1tx'.trans h1tx.symm, h2tx'.trans h2tx.symm⟩

/-- C7 at a concrete input: signing the sample send intent (1 ether from A to B, gas
(21000, 1), network 1) assigns nonce 7, the counter of A, moves the counter to 8, and
attaches the recoverable signature the sample signer returns for the serialization
with nonce 7. -/
theorem transferSign_stages_witness :
    memorySendIntent.transfers 4 = some transferSendIntent ∧
    memorySendIntent.transactions 5 = some txSendIntent ∧
    txSendIntent.nonce = TRANSACTION_NONCE_IS_NOT_ASSIGNED ∧
    ∃ m1,
      transferSign sampleCollaborators memorySendIntent 4 1 1 addressA [] = .ok m1 ∧
      m1.transactions 5 =
        some { txSendIntent with
                 nonce := 7
                 signature := some ⟨.SIGNATURE_TYPE_RECOVERABLE,
                   [1, 0, 1, 7, 10 ^ 18, 21000, 1, 0]⟩ } ∧
      m1.nonces 1 addressA = 8 := by
  refine ⟨rfl, rfl, rfl, ?_⟩
  obtain ⟨m1, m2, h1, -, h1tx, -, h1n, -⟩ :=
    transferSign_stages sampleCollaborators memorySendIntent 4 1 1 addressA [] ⟨[]⟩
      transferSendIntent txSendIntent rfl rfl rfl
  exact ⟨m1, h1, h1tx, h1n⟩

/-! ### Signing twice -/

/-- What one sign call, by either function, does to nonce and counters: the call
returns, the originating transaction carries the nonce of the nonce stage, the counters
are those of the nonce stage, and no transfer record changes. -/
theorem sign_nonce_effect (c : Collaborators) (m : Memory) (transfer : BREthereumTransfer)
    (network : BREthereumNetwork) (account : BREthereumAccount) (address : BREthereumAddress)
    (paperKey : List Char) (privateKey : BRKey)
    (t : BREthereumTransferRecord) (tx : BREthereumTransactionRecord)
    (ht : m.transfers transfer = some t)
    (htx : m.transactions t.originatingTransaction = some tx) :
    (∃ m1, transferSign c m transfer network account address paperKey = .ok m1) ∧
    (∃ m1, transferSignWithKey c m transfer network account address privateKey = .ok m1) ∧
    ∀ m1,
      (transferSign c m transfer network account address paperKey = .ok m1 ∨
        transferSignWithKey c m transfer network account address privateKey = .ok m1) →
      ∃ tx1,
        m1.transactions t.originatingTransaction = some tx1 ∧
        tx1.nonce = (nonceStageRecord m account address tx).nonce ∧
        m1.nonces = nonceStageCounters m account address tx ∧
        m1.transfers = m.transfers := by
  obtain ⟨k1, h1, h1tx, h1n, -, h1t, -⟩ :=
    transferSign_eq c m transfer network account address paperKey t tx ht htx
  obtain ⟨k2, h2, h2tx, h2n, -, h2t, -⟩ :=
    transferSignWithKey_eq c m transfer network account address privateKey t tx ht htx
  refine ⟨⟨k1, h1⟩, ⟨k2, h2⟩, ?_⟩
  intro m1 hm1
  rcases hm1 with e | e
  · rw [h1] at e
    cases e
    exact ⟨_, h1tx, rfl, h1n, h1t⟩
  · rw [h2] at e
    cases e
    exact ⟨_, h2tx, rfl, h2n, h2t⟩

/-- C6, amended: for every transfer with a live originating transaction, and every account
state in which the counter for the address is below `UINT64_MAX` if the nonce is still
unassigned, signing twice (each call `transferSign` or `transferSignWithKey`) assigns
the nonce at most once: every call returns; after the first call the nonce is assigned,
to the counter's value with the counter one further if it was unassigned before, and
with nonce and counters untouched if it was assigned before; the second call leaves the
nonce the first call left and leaves the counters as the first call left them. -/
theorem transferSign_twice (c : Collaborators) (m : Memory) (transfer : BREthereumTransfer)
    (network : BREthereumNetwork) (account : BREthereumAccount) (address : BREthereumAddress)
    (paperKey : List Char) (privateKey : BRKey)
    (t : BREthereumTransferRecord) (tx : BREthereumTransactionRecord)
    (ht : m.transfers transfer = some t)
    (htx : m.transactions t.originatingTransaction = some tx)
    (hcounter : tx.nonce = TRANSACTION_NONCE_IS_NOT_ASSIGNED →
      m.nonces account address < UINT64_MAX) :
    (∃ m1, transferSign c m transfer network account address paperKey = .ok m1) ∧
    (∃ m1, transferSignWithKey c m transfer network account address privateKey = .ok m1) ∧
    ∀ m1,
      (transferSign c m transfer network account address paperKey = .ok m1 ∨
        transferSignWithKey c m transfer network account address privateKey = .ok m1) →
      ∃ tx1,
        m1.transactions t.originatingTransaction = some tx1 ∧
        tx1.nonce ≠ TRANSACTION_NONCE_IS_NOT_ASSIGNED ∧
        (tx.nonce = TRANSACTION_NONCE_IS_NOT_ASSIGNED →
          tx1.nonce = m.nonces account address ∧
          m1.nonces account address = m.nonces account address + 1) ∧
        (tx.nonce ≠ TRANSACTION_NONCE_IS_NOT_ASSIGNED →
          tx1.nonce = tx.nonce ∧ m1.nonces = m.nonces) ∧
        (∃ m2, transferSign c m1 transfer network account address paperKey = .ok m2) ∧
        (∃ m2, transferSignWithKey c m1 transfer network account address privateKey
          = .ok m2) ∧
        ∀ m2,
          (transferSign c m1 transfer network account address paperKey = .ok m2 ∨
            transferSignWithKey c m1 transfer network account address privateKey = .ok m2) →
          ∃ tx2,
            m2.transactions t.originatingTransaction = some tx2 ∧
            tx2.nonce = tx1.nonce ∧ m2.nonces = m1.nonces := by
  have hassigned := nonceStageRecord_assigned m account address tx hcounter
  obtain ⟨hr1, hr2, hstep⟩ :=
    sign_nonce_effect c m transfer network account address paperKey privateKey t tx ht htx
  refine ⟨hr1, hr2, ?_⟩
  intro m1 hm1
  obtain ⟨tx1, h1tx, h1nonce, h1n, h1t⟩ := hstep m1 hm1
  have hassigned1 : TRANSACTION_NONCE_IS_NOT_ASSIGNED ≠ tx1.nonce := h1nonce ▸ hassigned
  obtain ⟨hs1, hs2, hstep1⟩ :=
    sign_nonce_effect c m1 transfer network account address paperKey privateKey t tx1
      (h1t ▸ ht) h1tx
  obtain ⟨hrec, hcnt⟩ := nonceStage_of_assigned m1 account address tx1 hassigned1
  refine ⟨tx1, h1tx, fun e => hassigned1 e.symm, ?_, ?_, hs1, hs2, ?_⟩
  · intro hn
    have hlt1 : m.nonces account address + 1 < 2 ^ 64 := by
      have := hcounter hn
      simp only [UINT64_MAX] at this
      omega
    rw [h1nonce, h1n]
    simp only [nonceStageRecord, nonceStageCounters, hn, accountGetThenIncrementAddressNonce,
      if_true, and_self, Nat.mod_eq_of_lt hlt1]
  · intro hn
    have hn1 : TRANSACTION_NONCE_IS_NOT_ASSIGNED ≠ tx.nonce := fun e => hn e.symm
    obtain ⟨hrec0, hcnt0⟩ := nonceStage_of_assigned m account address tx hn1
    rw [h1nonce, h1n, hrec0, hcnt0]
    exact ⟨rfl, rfl⟩
  · intro m2 hm2
    obtain ⟨tx2, h2tx, h2nonce, h2n, -⟩ := hstep1 m2 hm2
    rw [hrec] at h2nonce
    rw [hcnt] at h2n
    exact ⟨tx2, h2tx, h2nonce, h2n⟩

/-- C6, amended, at a concrete input: signing the sample send intent twice, first with
`transferSign` and then with `transferSignWithKey`, gives nonce 7 both times and leaves
the counter of A at 8. -/
theorem transferSign_twice_witness :
    memorySendIntent.transfers 4 = some transferSendIntent ∧
    memorySendIntent.transactions 5 = some txSendIntent ∧
    memorySendIntent.nonces 1 addressA < UINT64_MAX ∧
    ∃ m1 m2 tx1 tx2,
      transferSign sampleCollaborators memorySendIntent 4 1 1 addressA [] = .ok m1 ∧
      transferSignWithKey sampleCollaborators m1 4 1 1 addressA ⟨[]⟩ = .ok m2 ∧
      m1.transactions 5 = some tx1 ∧ m2.transactions 5 = some tx2 ∧
      tx1.nonce = 7 ∧ tx2.nonce = 7 ∧
      m1.nonces 1 addressA = 8 ∧ m2.nonces 1 addressA = 8 := by
  refine ⟨rfl, rfl, by decide, ?_⟩
  obtain ⟨⟨m1, h1⟩, -, hstep⟩ :=
    transferSign_twice sampleCollaborators memorySendIntent 4 1 1 addressA [] ⟨[]⟩
      transferSendIntent txSendIntent rfl rfl (fun _ => by decide)
  obtain ⟨tx1, h1tx, -, hun, -, -, ⟨m2, h2⟩, hstep2⟩ := hstep m1 (Or.inl h1)
  obtain ⟨tx2, h2tx, hsame, hn⟩ := hstep2 m2 (Or.inr h2)
  obtain ⟨e1, e2⟩ := hun rfl
  exact ⟨m1, m2, tx1, tx2, h1, h2, h1tx, h2tx, e1, hsame.trans e1, e2, by rw [hn]; exact e2⟩

/-- C6 as stated fails when the counter is `UINT64_MAX`: the first `transferSign` on the
sample send intent assigns the nonce `UINT64_MAX`, which is the unassigned sentinel, so
the second call fetches again: it assigns nonce 0 and leaves the counter at 1, two
fetches over the two calls. -/
theorem transferSign_twice_counter_at_sentinel :
    ∃ m1 m2 tx1 tx2,
      memoryCounterAtMax.nonces 1 addressA = UINT64_MAX ∧
      transferSign sampleCollaborators memoryCounterAtMax 4 1 1 addressA [] = .ok m1 ∧
      transferSign sampleCollaborators m1 4 1 1 addressA [] = .ok m2 ∧
      m1.transactions 5 = some tx1 ∧ m2.transactions 5 = some tx2 ∧
      tx1.nonce = UINT64_MAX ∧ tx2.nonce = 0 ∧
      m1.nonces 1 addressA = 0 ∧ m2.nonces 1 addressA = 1 := by
  refine ⟨?m1, ?m2, ?tx1, ?tx2, rfl, ?h1, ?h2, ?h3, ?h4, ?h5, ?h6, ?h7, ?h8⟩
  case h1 => exact rfl
  case h2 => exact rfl
  case h3 => exact rfl
  case h4 => exact rfl
  case h5 => decide
  case h6 => decide
  case h7 => decide
  case h8 => decide

/-! ### Failures while signing -/

/-- C8, amended: `transferSign` and `transferSignWithKey` have no failure path for their
collaborators.  Whenever the transfer and its originating transaction are live the call
completes, whatever the collaborators returned: the originating transaction then
carries the signature the signer returned and the nonce of the nonce stage, and the
counters are those of the nonce stage.  The call stops short only on a handle that is
not live, with nothing changed; the fault names no stage. -/
theorem transferSign_no_failure_path (c : Collaborators) (m : Memory)
    (transfer : BREthereumTransfer) (network : BREthereumNetwork)
    (account : BREthereumAccount) (address : BREthereumAddress)
    (paperKey : List Char) (privateKey : BRKey) :
    (m.transfers transfer = none →
      transferSign c m transfer network account address paperKey = .error .invalidPointer ∧
      transferSignWithKey c m transfer network account address privateKey
        = .error .invalidPointer) ∧
    (∀ t, m.transfers transfer = some t → m.transactions t.originatingTransaction = none →
      transferSign c m transfer network account address paperKey = .error .invalidPointer ∧
      transferSignWithKey c m transfer network account address privateKey
        = .error .invalidPointer) ∧
    (∀ t tx, m.transfers transfer = some t →
      m.transactions t.originatingTransaction = some tx →
      ∃ m1 m2 tx1 tx2,
        transferSign c m transfer network account address paperKey = .ok m1 ∧
        transferSignWithKey c m transfer network account address privateKey = .ok m2 ∧
        m1.transactions t.originatingTransaction = some tx1 ∧
        m2.transactions t.originatingTransaction = some tx2 ∧
        tx1.signature = some (c.accountSignBytes account address .SIGNATURE_TYPE_RECOVERABLE
          (c.transactionRlpEncode (nonceStageRecord m account address tx) network
            .RLP_TYPE_TRANSACTION_UNSIGNED) paperKey) ∧
        tx2.signature = some (c.accountSignBytesWithPrivateKey account address
          .SIGNATURE_TYPE_RECOVERABLE
          (c.transactionRlpEncode (nonceStageRecord m account address tx) network
            .RLP_TYPE_TRANSACTION_UNSIGNED) privateKey) ∧
        tx1.nonce = (nonceStageRecord m account address tx).nonce ∧
        tx2.nonce = (nonceStageRecord m account address tx).nonce ∧
        m1.nonces = nonceStageCounters m account address tx ∧
        m2.nonces = nonceStageCounters m account address tx) := by
  refine ⟨?_, ?_, ?_⟩
  · intro h
    simp [transferSign, transferSignWithKey, h]
  · intro t ht htx
    simp [transferSign, transferSignWithKey, ht, htx, transactionGetNonce]
  · intro t tx ht htx
    obtain ⟨m1, h1, h1tx, h1n, -⟩ :=
      transferSign_eq c m transfer network account address paperKey t tx ht htx
    obtain ⟨m2, h2, h2tx, h2n, -⟩ :=
      transferSignWithKey_eq c m transfer network account address privateKey t tx ht htx
    exact ⟨m1, m2, _, _, h1, h2, h1tx, h2tx, rfl, rfl, rfl, rfl, h1n, h2n⟩

/-- C8, amended, at a concrete input: signing the sample send intent completes and
attaches what the sample signer returned. -/
theorem transferSign_no_failure_path_witness :
    memorySendIntent.transfers 4 = some transferSendIntent ∧
    memorySendIntent.transactions 5 = some txSendIntent ∧
    ∃ m1 tx1,
      transferSign sampleCollaborators memorySendIntent 4 1 1 addressA [] = .ok m1 ∧
      m1.transactions 5 = some tx1 ∧
      tx1.signature = some ⟨.SIGNATURE_TYPE_RECOVERABLE, [1, 0, 1, 7, 10 ^ 18, 21000, 1, 0]⟩ := by
  refine ⟨rfl, rfl, ?_⟩
  obtain ⟨m1, -, tx1, -, h1, -, h1tx, -, hsig, -⟩ :=
    (transferSign_no_failure_path sampleCollaborators memorySendIntent 4 1 1 addressA []
      ⟨[]⟩).2.2 transferSendIntent txSendIntent rfl rfl
  exact ⟨m1, tx1, h1, h1tx, hsig⟩

/-- C8 as stated fails: with signers that fail (they hand back an empty signature of the
wrong kind, the only thing a signer can do through its return value), `transferSign`
and `transferSignWithKey` on the sample send intent still complete without reporting
anything, and leave the originating transaction with that signature attached and with
nonce 7 where it was unassigned, and the counter of A at 8 where it was 7. -/
theorem transferSign_failing_signer_attached :
    ∃ m1 m2 tx1 tx2,
      memorySendIntent.transactions 5 = some txSendIntent ∧
      txSendIntent.signature = none ∧
      txSendIntent.nonce = TRANSACTION_NONCE_IS_NOT_ASSIGNED ∧
      memorySendIntent.nonces 1 addressA = 7 ∧
      transferSign failingSigners memorySendIntent 4 1 1 addressA [] = .ok m1 ∧
      transferSignWithKey failingSigners memorySendIntent 4 1 1 addressA ⟨[]⟩ = .ok m2 ∧
      m1.transactions 5 = some tx1 ∧ m2.transactions 5 = some tx2 ∧
      tx1.signature = some ⟨.SIGNATURE_TYPE_FOO, []⟩ ∧
      tx2.signature = some ⟨.SIGNATURE_TYPE_FOO, []⟩ ∧
      tx1.nonce = 7 ∧ tx2.nonce = 7 ∧
      m1.nonces 1 addressA = 8 ∧ m2.nonces 1 addressA = 8 := by
  refine ⟨?m1, ?m2, ?tx1, ?tx2, rfl, rfl, rfl, rfl, ?h1, ?h2, ?h3, ?h4, ?h5, ?h6, ?h7, ?h8,
    ?h9, ?h10⟩
  case h1 => exact rfl
  case h2 => exact rfl
  case h3 => exact rfl
  case h4 => exact rfl
  all_goals decide

/-! ### Comparison -/

/-- C9: for two live transfers, `transferCompare` stops at its assertion, without an
ordering, when their basis kinds differ; when both are Transaction it returns
`transactionCompare` of the two basis transactions, and when both are Log `logCompare`
of the two basis logs. -/
theorem transferCompare_spec (c : Collaborators) (m : Memory) (t1 t2 : BREthereumTransfer)
    (r1 r2 : BREthereumTransferRecord)
    (h1 : m.transfers t1 = some r1) (h2 : m.transfers t2 = some r2) :
    (r1.basis.type ≠ r2.basis.type → transferCompare c m t1 t2 = .error .assertion) ∧
    (r1.basis.type = .TRANSFER_BASIS_TRANSACTION →
      r2.basis.type = .TRANSFER_BASIS_TRANSACTION →
      transferGetBasisTransaction m t1 = .ok r1.basis.u ∧
      transferGetBasisTransaction m t2 = .ok r2.basis.u ∧
      transferCompare c m t1 t2 = .ok (c.transactionCompare m r1.basis.u r2.basis.u)) ∧
    (r1.basis.type = .TRANSFER_BASIS_LOG →
      r2.basis.type = .TRANSFER_BASIS_LOG →
      transferGetBasisLog m t1 = .ok r1.basis.u ∧
      transferGetBasisLog m t2 = .ok r2.basis.u ∧
      transferCompare c m t1 t2 = .ok (c.logCompare m r1.basis.u r2.basis.u)) := by
  refine ⟨?_, ?_, ?_⟩
  · intro hne
    simp [transferCompare, h1, h2, hne]
  · intro e1 e2
    simp [transferCompare, transferGetBasisTransaction, h1, h2, e1, e2]
  · intro e1 e2
    simp [transferCompare, transferGetBasisLog, h1, h2, e1, e2]

/-- C9 at a concrete input: in the sample memory with a transfer built from a
transaction (handle 4) and one built from a log (handle 5), comparing the two stops at
the assertion, and comparing the first with itself is the comparison of its basis
transaction (handle 1) with itself. -/
theorem transferCompare_spec_witness :
    memoryTwoKinds.transfers 4 = some transferIncludedAt100 ∧
    memoryTwoKinds.transfers 5 = some transferFromLog ∧
    transferCompare sampleCollaborators memoryTwoKinds 4 5 = .error .assertion ∧
    transferCompare sampleCollaborators memoryTwoKinds 4 4
      = .ok (sampleCollaborators.transactionCompare memoryTwoKinds 1 1) :=
  ⟨rfl, rfl,
    (transferCompare_spec sampleCollaborators memoryTwoKinds 4 5 transferIncludedAt100
      transferFromLog rfl rfl).1 (by decide),
    ((transferCompare_spec sampleCollaborators memoryTwoKinds 4 4 transferIncludedAt100
      transferIncludedAt100 rfl rfl).2.1 rfl rfl).2.2⟩

/-! ### Release -/

/-- What `transferRelease` changes: the cell of the transfer, and nothing else.  No
transaction and no log is released, whether the basis refers to it or the transfer
owns it. -/
theorem transferRelease_frame (m m1 : Memory) (transfer : BREthereumTransfer)
    (h : transferRelease m transfer = .ok m1) :
    m1.transactions = m.transactions ∧ m1.logs = m.logs ∧ m1.nonces = m.nonces ∧
      (∀ q, q ≠ transfer → m1.transfers q = m.transfers q) ∧
      (transfer ≠ 0 → m1.transfers transfer = none) := by
  unfold transferRelease at h
  split at h
  · cases h
    exact ⟨rfl, rfl, rfl, fun _ _ => rfl, fun hne => absurd ‹transfer = 0› hne⟩
  · split at h
    · cases h
    · cases h
      exact ⟨rfl, rfl, rfl, fun q hq => Memory.setTransfer_transfers_other _ _ _ _ hq,
        fun _ => Memory.setTransfer_transfers_same _ _ _⟩

/-- C10 on the sample send intent: `transferRelease` frees the record of the transfer
(handle 4) and leaves the originating transaction it owns (handle 5) allocated, with no
transfer left in memory. -/
theorem transferRelease_leaves_originatingTransaction :
    ∃ m1,
      memorySendIntent.transfers 4 = some transferSendIntent ∧
      transferGetOriginatingTransaction memorySendIntent 4 = .ok 5 ∧
      transferRelease memorySendIntent 4 = .ok m1 ∧
      m1.transfers 4 = none ∧
      m1.transactions 5 = some txSendIntent ∧
      ∀ q, m1.transfers q = none := by
  refine ⟨?m1, rfl, rfl, ?h1, ?h2, ?h3, ?h4⟩
  case h1 => exact rfl
  case h2 => exact rfl
  case h3 => exact rfl
  case h4 =>
    intro q
    show (if q = 4 then none else memorySendIntent.transfers q) = none
    by_cases hq : q = 4
    · simp [hq]
    · simp only [hq, if_false]
      show (if q = 4 then _ else (if q = 4 then _ else none)) = none
      simp [hq]

/-! ### The transfers the observing constructors build -/

/-- What `transferCreateWithTransaction` leaves for a live transaction: a new transfer
behind the handle `m.brk + 1` with the fields read off the transaction, the basis set to
the transaction, no originating transaction; nothing else changes. -/
theorem transferCreateWithTransaction_record (m : Memory) (transaction : BREthereumTransaction)
    (tx : BREthereumTransactionRecord) (h : m.transactions transaction = some tx) :
    ∃ m1 t,
      transferCreateWithTransaction m transaction = .ok (m1, m.brk + 1) ∧
      m1.transfers (m.brk + 1) = some t ∧
      t.sourceAddress = tx.sourceAddress ∧ t.targetAddress = tx.targetAddress ∧
      t.amount = amountCreateEther tx.amount ∧
      t.feeBasis = .FEE_BASIS_GAS tx.gasLimit tx.gasPrice ∧
      t.gasEstimate = gasCreate 0 ∧ t.originatingTransaction = 0 ∧
      t.basis = { type := .TRANSFER_BASIS_TRANSACTION, u := transaction } ∧
      m1.transactions = m.transactions ∧ m1.logs = m.logs ∧ m1.nonces = m.nonces ∧
      ∀ q, q ≠ m.brk + 1 → m1.transfers q = m.transfers q := by
  obtain ⟨reason, hcopy, -, -⟩ := strncpy_placeholder
  cases hs : tx.status.type
  all_goals
    simp only [transferCreateWithTransaction, h, hs, transferCreateDetailed_fresh, hcopy]
    refine ⟨_, _, rfl, Memory.setTransfer_transfers_same _ _ _, rfl, rfl, rfl, rfl, rfl, rfl,
      rfl, rfl, rfl, rfl, ?_⟩
    intro q hq
    simp [transferCreateDetailed, Memory.setTransfer, hq]

/-- What `transferCreateWithLog` leaves for a live log: a new transfer behind the handle
`m.brk + 1`, exactly the zeroed record of `transferCreateDetailed` with the basis set to
the log; nothing else changes. -/
theorem transferCreateWithLog_record (m : Memory) (log : BREthereumLog)
    (token : BREthereumToken) (r : BREthereumLogRecord) (h : m.logs log = some r) :
    ∃ m1,
      transferCreateWithLog m log token = .ok (m1, m.brk + 1) ∧
      m1.transfers (m.brk + 1) =
        some { detailedRecord EMPTY_ADDRESS_INIT EMPTY_ADDRESS_INIT
                 (amountCreateToken (createTokenQuantity token 0)) .FEE_BASIS_NONE 0 with
               basis := { type := .TRANSFER_BASIS_LOG, u := log } } ∧
      m1.transactions = m.transactions ∧ m1.logs = m.logs ∧ m1.nonces = m.nonces ∧
      ∀ q, q ≠ m.brk + 1 → m1.transfers q = m.transfers q := by
  simp only [transferCreateWithLog, h, transferCreateDetailed_fresh]
  refine ⟨_, rfl, Memory.setTransfer_transfers_same _ _ _, rfl, rfl, rfl, ?_⟩
  intro q hq
  simp [transferCreateDetailed, Memory.setTransfer, hq]

/-! ### Basis accessors -/

/-- C11: the basis accessors return `NULL` for the kind the basis does not have: the
transfer built from a live transaction has that transaction as basis transaction and no
basis log; the transfer built from a live log has that log as basis log and no basis
transaction; for every live transfer at least one of the two accessors returns `NULL`. -/
theorem transferGetBasis_absent (m : Memory) :
    (∀ transaction tx, m.transactions transaction = some tx →
      ∃ m1 transfer,
        transferCreateWithTransaction m transaction = .ok (m1, transfer) ∧
        transferGetBasisTransaction m1 transfer = .ok transaction ∧
        transferGetBasisLog m1 transfer = .ok 0) ∧
    (∀ log token r, m.logs log = some r →
      ∃ m1 transfer,
        transferCreateWithLog m log token = .ok (m1, transfer) ∧
        transferGetBasisLog m1 transfer = .ok log ∧
        transferGetBasisTransaction m1 transfer = .ok 0) ∧
    (∀ transfer t, m.transfers transfer = some t →
      ∃ a b,
        transferGetBasisTransaction m transfer = .ok a ∧
        transferGetBasisLog m transfer = .ok b ∧
        (a = 0 ∨ b = 0)) := by
  refine ⟨?_, ?_, ?_⟩
  · intro transaction tx h
    obtain ⟨m1, t, hcreate, ht, -, -, -, -, -, -, hbasis, -⟩ :=
      transferCreateWithTransaction_record m transaction tx h
    refine ⟨m1, _, hcreate, ?_, ?_⟩
    · simp [transferGetBasisTransaction, ht, hbasis]
    · simp [transferGetBasisLog, ht, hbasis]
  · intro log token r h
    obtain ⟨m1, hcreate, ht, -⟩ := transferCreateWithLog_record m log token r h
    refine ⟨m1, _, hcreate, ?_, ?_⟩
    · simp [transferGetBasisLog, ht]
    · simp [transferGetBasisTransaction, ht]
  · intro transfer t ht
    cases hk : t.basis.type
    · exact ⟨t.basis.u, 0, by simp [transferGetBasisTransaction, ht, hk],
        by simp [transferGetBasisLog, ht, hk], Or.inr rfl⟩
    · exact ⟨0, t.basis.u, by simp [transferGetBasisTransaction, ht, hk],
        by simp [transferGetBasisLog, ht, hk], Or.inl rfl⟩

/-- C11 at a concrete input: in the sample memory the transfer built from transaction 1
has basis transaction 1 and no basis log, and the transfer built from log 3 has basis
log 3 and no basis transaction. -/
theorem transferGetBasis_absent_witness :
    sampleMemory.transactions 1 = some txIncludedAt100 ∧
    sampleMemory.logs 3 = some ⟨txIncludedAt100.status⟩ ∧
    (∃ m1 transfer,
      transferCreateWithTransaction sampleMemory 1 = .ok (m1, transfer) ∧
      transferGetBasisTransaction m1 transfer = .ok 1 ∧
      transferGetBasisLog m1 transfer = .ok 0) ∧
    (∃ m1 transfer,
      transferCreateWithLog sampleMemory 3 9 = .ok (m1, transfer) ∧
      transferGetBasisLog m1 transfer = .ok 3 ∧
      transferGetBasisTransaction m1 transfer = .ok 0) :=
  ⟨rfl, rfl, (transferGetBasis_absent sampleMemory).1 1 txIncludedAt100 rfl,
    (transferGetBasis_absent sampleMemory).2.1 3 9 ⟨txIncludedAt100.status⟩ rfl⟩

/-! ### Nonce of a transfer -/

/-- What `transferSetGasEstimate` leaves for a live transfer: its record with the new gas
estimate. -/
theorem transferSetGasEstimate_eq (m : Memory) (transfer : BREthereumTransfer)
    (gasEstimate : BREthereumGas) (t : BREthereumTransferRecord)
    (ht : m.transfers transfer = some t) :
    transferSetGasEstimate m transfer gasEstimate
      = .ok (m.setTransfer transfer (some { t with gasEstimate := gasEstimate })) := by
  simp only [transferSetGasEstimate, ht]

/-- C12: for every live transfer, `transferGetNonce` is the nonce of the originating
transaction when the transfer has one, and the unassigned sentinel `UINT64_MAX`
otherwise.  So a transfer fresh from `transferCreate` reports the sentinel, still does
after `transferSetGasEstimate`, and reports the assigned counter value once
`transferSign` has run; and a transfer built by `transferCreateWithTransaction` or
`transferCreateWithLog` reports the sentinel, whatever nonce its basis transaction
carries. -/
theorem transferGetNonce_spec (c : Collaborators) (m : Memory) (transfer : BREthereumTransfer)
    (t : BREthereumTransferRecord) (ht : m.transfers transfer = some t) :
    (t.originatingTransaction = 0 →
      transferGetNonce m transfer = .ok TRANSACTION_NONCE_IS_NOT_ASSIGNED) ∧
    (∀ tx, t.originatingTransaction ≠ 0 →
      m.transactions t.originatingTransaction = some tx →
      transferGetNonce m transfer = .ok tx.nonce) ∧
    TRANSACTION_NONCE_IS_NOT_ASSIGNED = UINT64_MAX ∧
    (∀ sourceAddress targetAddress amount feeBasis,
      ∃ m1 p,
        transferCreate c m sourceAddress targetAddress amount feeBasis = .ok (m1, p) ∧
        transferGetNonce m1 p = .ok TRANSACTION_NONCE_IS_NOT_ASSIGNED ∧
        (∀ gasEstimate, ∃ m2,
          transferSetGasEstimate m1 p gasEstimate = .ok m2 ∧
          transferGetNonce m2 p = .ok TRANSACTION_NONCE_IS_NOT_ASSIGNED) ∧
        (∀ network account address paperKey, ∃ m2,
          transferSign c m1 p network account address paperKey = .ok m2 ∧
          transferGetNonce m2 p = .ok (m.nonces account address))) ∧
    (∀ transaction tx, m.transactions transaction = some tx →
      ∃ m1 p,
        transferCreateWithTransaction m transaction = .ok (m1, p) ∧
        transferGetNonce m1 p = .ok TRANSACTION_NONCE_IS_NOT_ASSIGNED) ∧
    (∀ log token r, m.logs log = some r →
      ∃ m1 p,
        transferCreateWithLog m log token = .ok (m1, p) ∧
        transferGetNonce m1 p = .ok TRANSACTION_NONCE_IS_NOT_ASSIGNED) := by
  refine ⟨?_, ?_, rfl, ?_, ?_, ?_⟩
  · intro h0
    simp [transferGetNonce, ht, h0]
  · intro tx hne htx
    have hne1 : ¬ 0 = t.originatingTransaction := fun e => hne e.symm
    simp [transferGetNonce, ht, hne1, transactionGetNonce, htx]
  · intro sourceAddress targetAddress amount feeBasis
    obtain ⟨m1, hcreate, htransfer, htx, -, -, -, hnonces, -⟩ :=
      transferCreate_eq c m sourceAddress targetAddress amount feeBasis
    refine ⟨m1, _, hcreate, ?_, ?_, ?_⟩
    · simp [transferGetNonce, htransfer, transactionGetNonce, htx, synthesizedRecord]
    · intro gasEstimate
      refine ⟨_, transferSetGasEstimate_eq m1 _ gasEstimate _ htransfer, ?_⟩
      simp [transferGetNonce, transactionGetNonce, htx, synthesizedRecord]
    · intro network account address paperKey
      obtain ⟨m2, hsign, h2tx, -, -, h2t, -⟩ :=
        transferSign_eq c m1 (m.brk + 1) network account address paperKey _ _ htransfer htx
      refine ⟨m2, hsign, ?_⟩
      simp only [] at h2tx
      simp [transferGetNonce, h2t, htransfer, transactionGetNonce, h2tx, nonceStageRecord,
        synthesizedRecord, hnonces]
  · intro transaction tx h
    obtain ⟨m1, t1, hcreate, h1, -, -, -, -, -, horig, -⟩ :=
      transferCreateWithTransaction_record m transaction tx h
    exact ⟨m1, _, hcreate, by simp [transferGetNonce, h1, horig]⟩
  · intro log token r h
    obtain ⟨m1, hcreate, h1, -⟩ := transferCreateWithLog_record m log token r h
    exact ⟨m1, _, hcreate, by simp [transferGetNonce, h1, detailedRecord]⟩

/-- C12 at a concrete input: the transfer built from the sample included transaction,
whose nonce is 4, reports the sentinel; the sample send-intent transfer reports the
sentinel, the nonce of its originating transaction. -/
theorem transferGetNonce_spec_witness :
    memoryIncluded.transfers 4 = some transferIncludedAt100 ∧
    memoryIncluded.transactions 1 = some txIncludedAt100 ∧
    txIncludedAt100.nonce = 4 ∧
    transferGetNonce memoryIncluded 4 = .ok 18446744073709551615 ∧
    memorySendIntent.transfers 4 = some transferSendIntent ∧
    memorySendIntent.transactions 5 = some txSendIntent ∧
    transferGetNonce memorySendIntent 4 = .ok txSendIntent.nonce :=
  ⟨rfl, rfl, rfl,
    (transferGetNonce_spec sampleCollaborators memoryIncluded 4 transferIncludedAt100 rfl).1
      rfl,
    rfl, rfl,
    (transferGetNonce_spec sampleCollaborators memorySendIntent 4 transferSendIntent
      rfl).2.1 txSendIntent (by decide) rfl⟩

/-! ### Fee of a transfer -/

/-- C13: for every live transfer, `transferGetFee` returns zero ether and reports
overflow 0 when the basis is a log, and with a `NULL` overflow pointer returns zero
ether and writes nothing; when the basis is a live transaction it returns that
transaction's own fee together with the overflow report `transactionGetFee` leaves in
the cell. -/
theorem transferGetFee_spec (c : Collaborators) (m : Memory) (transfer : BREthereumTransfer)
    (t : BREthereumTransferRecord) (ht : m.transfers transfer = some t) :
    (t.basis.type = .TRANSFER_BASIS_LOG →
      (∀ cell : Int, transferGetFee c m transfer (some cell) = .ok (etherCreateZero, some 0)) ∧
      transferGetFee c m transfer none = .ok (etherCreateZero, none)) ∧
    (t.basis.type = .TRANSFER_BASIS_TRANSACTION →
      ∀ tx, m.transactions t.basis.u = some tx →
        (∀ cell : Int,
          transferGetFee c m transfer (some cell) = .ok (c.transactionGetFee tx (some 0))) ∧
        transferGetFee c m transfer none = .ok (c.transactionGetFee tx none)) := by
  constructor
  · intro hk
    simp [transferGetFee, ht, hk]
  · intro hk tx htx
    simp [transferGetFee, ht, hk, htx]

/-- C13 at a concrete input: in the sample memory with two transfers, the transfer built
from the log has fee zero with overflow 0, also with a `NULL` pointer, and the transfer
built from the included transaction has that transaction's fee, 21000 at gas price 1,
with overflow 0. -/
theorem transferGetFee_spec_witness :
    memoryTwoKinds.transfers 5 = some transferFromLog ∧
    memoryTwoKinds.transfers 4 = some transferIncludedAt100 ∧
    memoryTwoKinds.transactions 1 = some txIncludedAt100 ∧
    transferGetFee sampleCollaborators memoryTwoKinds 5 (some 1) = .ok (⟨0⟩, some 0) ∧
    transferGetFee sampleCollaborators memoryTwoKinds 5 none = .ok (⟨0⟩, none) ∧
    transferGetFee sampleCollaborators memoryTwoKinds 4 (some 1) = .ok (⟨21000⟩, some 0) :=
  ⟨rfl, rfl, rfl,
    ((transferGetFee_spec sampleCollaborators memoryTwoKinds 5 transferFromLog rfl).1 rfl).1 1,
    ((transferGetFee_spec sampleCollaborators memoryTwoKinds 5 transferFromLog rfl).1 rfl).2,
    ((transferGetFee_spec sampleCollaborators memoryTwoKinds 4 transferIncludedAt100 rfl).2
      rfl txIncludedAt100 rfl).1 1⟩

/-! ### Fields of the transfers the observing constructors build -/

/-- C14: for every live observed transaction, `transferCreateWithTransaction` returns a
transfer with the transaction's source and target, the ether amount of the
transaction's value (so `transferGetToken` is `NULL`), the fee basis Gas (gas limit,
gas price) of the transaction, the transaction as basis, gas estimate zero and no
originating transaction. -/
theorem transferCreateWithTransaction_fields (m : Memory) (transaction : BREthereumTransaction)
    (tx : BREthereumTransactionRecord) (h : m.transactions transaction = some tx) :
    ∃ m1 transfer,
      transferCreateWithTransaction m transaction = .ok (m1, transfer) ∧
      transferGetSourceAddress m1 transfer = .ok tx.sourceAddress ∧
      transferGetTargetAddress m1 transfer = .ok tx.targetAddress ∧
      transferGetAmount m1 transfer = .ok (amountCreateEther tx.amount) ∧
      amountGetType (amountCreateEther tx.amount) = .AMOUNT_ETHER ∧
      transferGetToken m1 transfer = .ok 0 ∧
      transferGetFeeBasis m1 transfer = .ok (.FEE_BASIS_GAS tx.gasLimit tx.gasPrice) ∧
      transferGetBasisTransaction m1 transfer = .ok transaction ∧
      (∃ t, m1.transfers transfer = some t ∧
        t.basis = { type := .TRANSFER_BASIS_TRANSACTION, u := transaction }) ∧
      transferGetGasEstimate m1 transfer = .ok (gasCreate 0) ∧
      transferGetOriginatingTransaction m1 transfer = .ok 0 := by
  obtain ⟨m1, t, hcreate, ht, h1, h2, h3, h4, h5, h6, h7, -⟩ :=
    transferCreateWithTransaction_record m transaction tx h
  refine ⟨m1, _, hcreate, ?_, ?_, ?_, rfl, ?_, ?_, ?_, ⟨t, ht, h7⟩, ?_, ?_⟩
  · simp [transferGetSourceAddress, ht, h1]
  · simp [transferGetTargetAddress, ht, h2]
  · simp [transferGetAmount, ht, h3]
  · simp [transferGetToken, ht, h3, amountCreateEther]
  · simp [transferGetFeeBasis, ht, h4]
  · simp [transferGetBasisTransaction, ht, h7]
  · simp [transferGetGasEstimate, ht, h5]
  · simp [transferGetOriginatingTransaction, ht, h6]

/-- C14 at a concrete input: the transfer built from the sample included transaction
goes from A to B, carries 5 WEI of ether, and has fee basis Gas (21000, 1). -/
theorem transferCreateWithTransaction_fields_witness :
    sampleMemory.transactions 1 = some txIncludedAt100 ∧
    ∃ m1 transfer,
      transferCreateWithTransaction sampleMemory 1 = .ok (m1, transfer) ∧
      transferGetSourceAddress m1 transfer = .ok addressA ∧
      transferGetTargetAddress m1 transfer = .ok addressB ∧
      transferGetAmount m1 transfer = .ok (.ether ⟨5⟩) ∧
      transferGetToken m1 transfer = .ok 0 ∧
      transferGetFeeBasis m1 transfer = .ok (.FEE_BASIS_GAS ⟨21000⟩ ⟨⟨1⟩⟩) ∧
      transferGetBasisTransaction m1 transfer = .ok 1 ∧
      transferGetGasEstimate m1 transfer = .ok ⟨0⟩ ∧
      transferGetOriginatingTransaction m1 transfer = .ok 0 := by
  refine ⟨rfl, ?_⟩
  obtain ⟨m1, transfer, h0, h1, h2, h3, -, h4, h5, h6, -, h7, h8⟩ :=
    transferCreateWithTransaction_fields sampleMemory 1 txIncludedAt100 rfl
  exact ⟨m1, transfer, h0, h1, h2, h3, h4, h5, h6, h7, h8⟩

/-- C15: for every live log and every token, `transferCreateWithLog` returns a transfer
with fee basis None, the token amount of the given token with quantity zero (so
`transferGetToken` returns the token), the empty address as source and as target, the
log as basis, gas estimate zero and no originating transaction; its fee is zero. -/
theorem transferCreateWithLog_fields (c : Collaborators) (m : Memory) (log : BREthereumLog)
    (token : BREthereumToken) (r : BREthereumLogRecord) (h : m.logs log = some r) :
    ∃ m1 transfer,
      transferCreateWithLog m log token = .ok (m1, transfer) ∧
      transferGetFeeBasis m1 transfer = .ok .FEE_BASIS_NONE ∧
      transferGetAmount m1 transfer = .ok (amountCreateToken (createTokenQuantity token 0)) ∧
      amountGetType (amountCreateToken (createTokenQuantity token 0)) = .AMOUNT_TOKEN ∧
      transferGetToken m1 transfer = .ok token ∧
      transferGetSourceAddress m1 transfer = .ok EMPTY_ADDRESS_INIT ∧
      transferGetTargetAddress m1 transfer = .ok EMPTY_ADDRESS_INIT ∧
      transferGetBasisLog m1 transfer = .ok log ∧
      (∃ t, m1.transfers transfer = some t ∧
        t.basis = { type := .TRANSFER_BASIS_LOG, u := log }) ∧
      transferGetGasEstimate m1 transfer = .ok (gasCreate 0) ∧
      transferGetOriginatingTransaction m1 transfer = .ok 0 ∧
      (∀ cell : Int, transferGetFee c m1 transfer (some cell) = .ok (etherCreateZero, some 0)) ∧
      transferGetFee c m1 transfer none = .ok (etherCreateZero, none) := by
  obtain ⟨m1, hcreate, ht, -⟩ := transferCreateWithLog_record m log token r h
  refine ⟨m1, _, hcreate, ?_, ?_, rfl, ?_, ?_, ?_, ?_, ⟨_, ht, rfl⟩, ?_, ?_, ?_, ?_⟩
  · simp [transferGetFeeBasis, ht, detailedRecord]
  · simp [transferGetAmount, ht, detailedRecord]
  · simp [transferGetToken, ht, detailedRecord, amountCreateToken, createTokenQuantity]
  · simp [transferGetSourceAddress, ht, detailedRecord]
  · simp [transferGetTargetAddress, ht, detailedRecord]
  · simp [transferGetBasisLog, ht]
  · simp [transferGetGasEstimate, ht, detailedRecord]
  · simp [transferGetOriginatingTransaction, ht, detailedRecord]
  · intro cell
    simp [transferGetFee, ht]
  · simp [transferGetFee, ht]

/-- C15 at a concrete input: the transfer built from the sample log for token 9 has
token 9 with quantity zero, no fee basis, and fee zero. -/
theorem transferCreateWithLog_fields_witness :
    sampleMemory.logs 3 = some ⟨txIncludedAt100.status⟩ ∧
    ∃ m1 transfer,
      transferCreateWithLog sampleMemory 3 9 = .ok (m1, transfer) ∧
      transferGetFeeBasis m1 transfer = .ok .FEE_BASIS_NONE ∧
      transferGetAmount m1 transfer = .ok (.tokenQuantity ⟨9, 0⟩) ∧
      transferGetToken m1 transfer = .ok 9 ∧
      transferGetBasisLog m1 transfer = .ok 3 ∧
      transferGetFee sampleCollaborators m1 transfer (some 1) = .ok (⟨0⟩, some 0) := by
  refine ⟨rfl, ?_⟩
  obtain ⟨m1, transfer, h0, h1, h2, -, h3, -, -, h4, -, -, -, h5, -⟩ :=
    transferCreateWithLog_fields sampleCollaborators sampleMemory 3 9
      ⟨txIncludedAt100.status⟩ rfl
  exact ⟨m1, transfer, h0, h1, h2, h3, h4, h5 1⟩

/-! ### What the mutating operations keep -/

/-- C16: the mutating operations keep the basis.  For a live transfer,
`transferSetGasEstimate` returns and changes the gas estimate of that transfer only:
basis kind and handle, source, target, amount, fee basis, status and originating
transaction handle are as before, as are all other records.  `transferSign` and
`transferSignWithKey`, when the originating transaction is live, return and leave every
transfer record as it was; of the transactions only the originating one changes, and
only in its nonce and signature; logs are as before. -/
theorem mutators_keep_basis (c : Collaborators) (m : Memory) (transfer : BREthereumTransfer)
    (t : BREthereumTransferRecord) (ht : m.transfers transfer = some t) :
    (∀ gasEstimate, ∃ m1 t1,
      transferSetGasEstimate m transfer gasEstimate = .ok m1 ∧
      m1.transfers transfer = some t1 ∧
      t1.basis = t.basis ∧
      t1.sourceAddress = t.sourceAddress ∧ t1.targetAddress = t.targetAddress ∧
      t1.amount = t.amount ∧ t1.feeBasis = t.feeBasis ∧ t1.status = t.status ∧
      t1.originatingTransaction = t.originatingTransaction ∧
      t1.gasEstimate = gasEstimate ∧
      (∀ q, q ≠ transfer → m1.transfers q = m.transfers q) ∧
      m1.transactions = m.transactions ∧ m1.logs = m.logs ∧ m1.nonces = m.nonces) ∧
    (∀ tx, m.transactions t.originatingTransaction = some tx →
      ∀ network account address paperKey privateKey,
        (∃ m1, transferSign c m transfer network account address paperKey = .ok m1) ∧
        (∃ m1, transferSignWithKey c m transfer network account address privateKey
          = .ok m1) ∧
        ∀ m1,
          (transferSign c m transfer network account address paperKey = .ok m1 ∨
            transferSignWithKey c m transfer network account address privateKey = .ok m1) →
          m1.transfers = m.transfers ∧
          m1.transfers transfer = some t ∧
          m1.logs = m.logs ∧
          (∀ q, q ≠ t.originatingTransaction → m1.transactions q = m.transactions q) ∧
          ∃ tx1,
            m1.transactions t.originatingTransaction = some tx1 ∧
            { tx1 with nonce := tx.nonce, signature := tx.signature } = tx) := by
  constructor
  · intro gasEstimate
    refine ⟨_, _, transferSetGasEstimate_eq m transfer gasEstimate t ht,
      Memory.setTransfer_transfers_same _ _ _, rfl, rfl, rfl, rfl, rfl, rfl, rfl, rfl, ?_, rfl,
      rfl, rfl⟩
    intro q hq
    exact Memory.setTransfer_transfers_other _ _ _ _ hq
  · intro tx htx network account address paperKey privateKey
    obtain ⟨k1, h1, h1tx, -, h1o, h1t, h1l, -⟩ :=
      transferSign_eq c m transfer network account address paperKey t tx ht htx
    obtain ⟨k2, h2, h2tx, -, h2o, h2t, h2l, -⟩ :=
      transferSignWithKey_eq c m transfer network account address privateKey t tx ht htx
    have hrec : ∀ sig : Option BREthereumSignature,
        ({ ({ nonceStageRecord m account address tx with signature := sig } :
            BREthereumTransactionRecord) with
          nonce := tx.nonce, signature := tx.signature } : BREthereumTransactionRecord)
        = tx := by
      intro sig
      unfold nonceStageRecord
      split <;> rfl
    refine ⟨⟨k1, h1⟩, ⟨k2, h2⟩, ?_⟩
    intro m1 hm1
    rcases hm1 with e | e
    · rw [h1] at e
      cases e
      exact ⟨h1t, h1t ▸ ht, h1l, h1o, _, h1tx, hrec _⟩
    · rw [h2] at e
      cases e
      exact ⟨h2t, h2t ▸ ht, h2l, h2o, _, h2tx, hrec _⟩

/-- C16 at a concrete input: on the sample send intent, setting the gas estimate to
21000 leaves the zeroed basis and the originating transaction handle 5, and signing
leaves the transfer record as it was. -/
theorem mutators_keep_basis_witness :
    memorySendIntent.transfers 4 = some transferSendIntent ∧
    memorySendIntent.transactions 5 = some txSendIntent ∧
    (∃ m1 t1,
      transferSetGasEstimate memorySendIntent 4 ⟨21000⟩ = .ok m1 ∧
      m1.transfers 4 = some t1 ∧
      t1.basis = { type := .TRANSFER_BASIS_TRANSACTION, u := 0 } ∧
      t1.originatingTransaction = 5 ∧ t1.gasEstimate = ⟨21000⟩) ∧
    (∃ m1,
      transferSign sampleCollaborators memorySendIntent 4 1 1 addressA [] = .ok m1 ∧
      m1.transfers 4 = some transferSendIntent) := by
  have hthm := mutators_keep_basis sampleCollaborators memorySendIntent 4 transferSendIntent rfl
  refine ⟨rfl, rfl, ?_, ?_⟩
  · obtain ⟨m1, t1, h0, h1, h2, -, -, -, -, -, h3, h4, -⟩ := hthm.1 ⟨21000⟩
    exact ⟨m1, t1, h0, h1, h2, h3, h4⟩
  · obtain ⟨⟨m1, h1⟩, -, hstep⟩ := hthm.2 txSendIntent rfl 1 1 addressA [] ⟨[]⟩
    exact ⟨m1, h1, (hstep m1 (Or.inl h1)).2.1⟩

/-! ### The two sign functions -/

/-- Two memories with the same fields are the same memory. -/
theorem Memory.eq_of_fields (a b : Memory) (h1 : a.transfers = b.transfers)
    (h2 : a.transactions = b.transactions) (h3 : a.logs = b.logs) (h4 : a.nonces = b.nonces)
    (h5 : a.brk = b.brk) : a = b := by
  cases a
  cases b
  simp only [Memory.mk.injEq]
  exact ⟨h1, h2, h3, h4, h5⟩

/-- C17: `transferSign` and `transferSignWithKey` follow the same protocol and differ
only in the signer.  They stop with the same fault on the same memories.  When the
transfer and its originating transaction are live, both return; both leave the
originating transaction with the same nonce (the one of the nonce stage) and leave the
same counters; both signers are asked for a recoverable signature over the same bytes,
the unsigned serialization of that transaction; apart from the attached signature the
two memories agree, and if the two signers return the same signature for those bytes
the two memories are equal. -/
theorem transferSign_transferSignWithKey (c : Collaborators) (m : Memory)
    (transfer : BREthereumTransfer) (network : BREthereumNetwork)
    (account : BREthereumAccount) (address : BREthereumAddress)
    (paperKey : List Char) (privateKey : BRKey) :
    (∀ e, transferSign c m transfer network account address paperKey = .error e ↔
      transferSignWithKey c m transfer network account address privateKey = .error e) ∧
    (∀ t tx, m.transfers transfer = some t →
      m.transactions t.originatingTransaction = some tx →
      ∃ m1 m2 txn bytes,
        transferSign c m transfer network account address paperKey = .ok m1 ∧
        transferSignWithKey c m transfer network account address privateKey = .ok m2 ∧
        txn = nonceStageRecord m account address tx ∧
        bytes = c.transactionRlpEncode txn network .RLP_TYPE_TRANSACTION_UNSIGNED ∧
        m1.transactions t.originatingTransaction =
          some { txn with
                   signature := some (c.accountSignBytes account address
                     .SIGNATURE_TYPE_RECOVERABLE bytes paperKey) } ∧
        m2.transactions t.originatingTransaction =
          some { txn with
                   signature := some (c.accountSignBytesWithPrivateKey account address
                     .SIGNATURE_TYPE_RECOVERABLE bytes privateKey) } ∧
        m1.nonces = m2.nonces ∧ m1.nonces = nonceStageCounters m account address tx ∧
        m1.transfers = m2.transfers ∧ m1.logs = m2.logs ∧ m1.brk = m2.brk ∧
        (∀ q, q ≠ t.originatingTransaction → m1.transactions q = m2.transactions q) ∧
        (c.accountSignBytes account address .SIGNATURE_TYPE_RECOVERABLE bytes paperKey
            = c.accountSignBytesWithPrivateKey account address .SIGNATURE_TYPE_RECOVERABLE
                bytes privateKey →
          m1 = m2)) := by
  constructor
  · intro e
    cases ht : m.transfers transfer with
    | none => simp [transferSign, transferSignWithKey, ht]
    | some t =>
      cases htx : m.transactions t.originatingTransaction with
      | none => simp [transferSign, transferSignWithKey, ht, htx, transactionGetNonce]
      | some tx =>
        obtain ⟨k1, h1, -⟩ :=
          transferSign_eq c m transfer network account address paperKey t tx ht htx
        obtain ⟨k2, h2, -⟩ :=
          transferSignWithKey_eq c m transfer network account address privateKey t tx ht htx
        simp [h1, h2]
  · intro t tx ht htx
    obtain ⟨k1, h1, h1tx, h1n, h1o, h1t, h1l, h1b⟩ :=
      transferSign_eq c m transfer network account address paperKey t tx ht htx
    obtain ⟨k2, h2, h2tx, h2n, h2o, h2t, h2l, h2b⟩ :=
      transferSignWithKey_eq c m transfer network account address privateKey t tx ht htx
    refine ⟨k1, k2, _, _, h1, h2, rfl, rfl, h1tx, h2tx, h1n.trans h2n.symm, h1n,
      h1t.trans h2t.symm, h1l.trans h2l.symm, h1b.trans h2b.symm, ?_, ?_⟩
    · intro q hq
      rw [h1o q hq, h2o q hq]
    · intro hsig
      apply Memory.eq_of_fields _ _ (h1t.trans h2t.symm) _ (h1l.trans h2l.symm)
        (h1n.trans h2n.symm) (h1b.trans h2b.symm)
      funext q
      by_cases hq : q = t.originatingTransaction
      · rw [hq, h1tx, h2tx, hsig]
      · rw [h1o q hq, h2o q hq]

/-- C17 at a concrete input: on the sample send intent the sample signers return the
same signature for an empty paper key and an empty private key, and the two sign
functions leave the same memory. -/
theorem transferSign_transferSignWithKey_witness :
    memorySendIntent.transfers 4 = some transferSendIntent ∧
    memorySendIntent.transactions 5 = some txSendIntent ∧
    ∃ m1,
      transferSign sampleCollaborators memorySendIntent 4 1 1 addressA [] = .ok m1 ∧
      transferSignWithKey sampleCollaborators memorySendIntent 4 1 1 addressA ⟨[]⟩ = .ok m1 := by
  refine ⟨rfl, rfl, ?_⟩
  obtain ⟨m1, m2, txn, bytes, h1, h2, -, -, -, -, -, -, -, -, -, -, heq⟩ :=
    (transferSign_transferSignWithKey sampleCollaborators memorySendIntent 4 1 1 addressA
      [] ⟨[]⟩).2 transferSendIntent txSendIntent rfl rfl
  have hm : m1 = m2 := heq rfl
  exact ⟨m1, h1, hm ▸ h2⟩

/-! ### The basis of a send intent -/

/-- C18: for every send intent, `transferCreate` returns a transfer whose basis is the
zeroed record, kind Transaction with a `NULL` handle: `transferGetBasisTransaction` and
`transferGetBasisLog` both return `NULL` while `transferGetOriginatingTransaction`
returns a live transaction; and `transferCompare` passes its kind check for that
transfer against every transfer with a Transaction basis, handing the `NULL` handle to
`transactionCompare`, and stops at the assertion against every transfer with a Log
basis. -/
theorem transferCreate_basis_zero (c : Collaborators) (m : Memory)
    (sourceAddress targetAddress : BREthereumAddress) (amount : BREthereumAmount)
    (feeBasis : BREthereumFeeBasis) :
    ∃ m1 transfer t,
      transferCreate c m sourceAddress targetAddress amount feeBasis = .ok (m1, transfer) ∧
      m1.transfers transfer = some t ∧
      t.basis = BREthereumTransferBasis.zero ∧
      t.basis.type = .TRANSFER_BASIS_TRANSACTION ∧ t.basis.u = 0 ∧
      transferGetBasisTransaction m1 transfer = .ok 0 ∧
      transferGetBasisLog m1 transfer = .ok 0 ∧
      (∃ originatingTransaction tx,
        transferGetOriginatingTransaction m1 transfer = .ok originatingTransaction ∧
        originatingTransaction ≠ 0 ∧
        m1.transactions originatingTransaction = some tx) ∧
      ∀ other r, m1.transfers other = some r →
        (r.basis.type = .TRANSFER_BASIS_TRANSACTION →
          transferCompare c m1 transfer other = .ok (c.transactionCompare m1 0 r.basis.u) ∧
          transferCompare c m1 other transfer = .ok (c.transactionCompare m1 r.basis.u 0)) ∧
        (r.basis.type = .TRANSFER_BASIS_LOG →
          transferCompare c m1 transfer other = .error .assertion ∧
          transferCompare c m1 other transfer = .error .assertion) := by
  obtain ⟨m1, hcreate, htransfer, htx, -⟩ :=
    transferCreate_eq c m sourceAddress targetAddress amount feeBasis
  refine ⟨m1, _, _, hcreate, htransfer, rfl, rfl, rfl, ?_, ?_, ⟨m.brk + 2, _, ?_, ?_, htx⟩, ?_⟩
  · simp [transferGetBasisTransaction, htransfer, detailedRecord, BREthereumTransferBasis.zero]
  · simp [transferGetBasisLog, htransfer, detailedRecord, BREthereumTransferBasis.zero]
  · simp [transferGetOriginatingTransaction, htransfer]
  · simp
  · intro other r hr
    constructor
    · intro hk
      simp [transferCompare, htransfer, hr, hk, detailedRecord, BREthereumTransferBasis.zero]
    · intro hk
      simp [transferCompare, htransfer, hr, hk, detailedRecord, BREthereumTransferBasis.zero]

/-- C18 at a concrete input: a send intent created in the sample memory with two
transfers gets handle 6; against the transfer built from a transaction (handle 4) the
comparison is `transactionCompare` of `NULL` and transaction 1, and against the transfer
built from a log (handle 5) it stops at the assertion. -/
theorem transferCreate_basis_zero_witness :
    ∃ m1,
      transferCreate sampleCollaborators memoryTwoKinds addressA addressB
        (amountCreateEther ⟨10 ^ 18⟩) (.FEE_BASIS_GAS ⟨21000⟩ ⟨⟨1⟩⟩) = .ok (m1, 6) ∧
      m1.transfers 4 = some transferIncludedAt100 ∧
      m1.transfers 5 = some transferFromLog ∧
      transferGetBasisTransaction m1 6 = .ok 0 ∧
      transferGetBasisLog m1 6 = .ok 0 ∧
      transferGetOriginatingTransaction m1 6 = .ok 7 ∧
      transferCompare sampleCollaborators m1 6 4
        = .ok (sampleCollaborators.transactionCompare m1 0 1) ∧
      transferCompare sampleCollaborators m1 6 5 = .error .assertion := by
  obtain ⟨m1, transfer, t, h0, -, -, -, -, h1, h2, -, hcmp⟩ :=
    transferCreate_basis_zero sampleCollaborators memoryTwoKinds addressA addressB
      (amountCreateEther ⟨10 ^ 18⟩) (.FEE_BASIS_GAS ⟨21000⟩ ⟨⟨1⟩⟩)
  have h0c := h0
  rw [show transferCreate sampleCollaborators memoryTwoKinds addressA addressB
      (amountCreateEther ⟨10 ^ 18⟩) (.FEE_BASIS_GAS ⟨21000⟩ ⟨⟨1⟩⟩)
      = .ok ((match transferCreate sampleCollaborators memoryTwoKinds addressA addressB
          (amountCreateEther ⟨10 ^ 18⟩) (.FEE_BASIS_GAS ⟨21000⟩ ⟨⟨1⟩⟩) with
        | .ok created => created.1
        | .error _ => memoryTwoKinds), 6) from rfl] at h0c
  cases h0c
  exact ⟨_, h0, rfl, rfl, h1, h2, rfl, ((hcmp 4 transferIncludedAt100 rfl).1 rfl).1,
    ((hcmp 5 transferFromLog rfl).2 rfl).1⟩

/-! ### The status of a transfer built from a log -/

/-- C19: `transferCreateWithLog` does not use the status of the log.  For every live log
and every token the new transfer has the zeroed status of `transferCreateDetailed`, the
status a fresh send-intent transfer has, so `transferExtractStatusIncluded` and
`transferExtractStatusError` both return 0 and write nothing; and with any other
status stored in the log the new transfer record is the same. -/
theorem transferCreateWithLog_ignores_status (c : Collaborators) (m : Memory)
    (log : BREthereumLog) (token : BREthereumToken) (r : BREthereumLogRecord)
    (h : m.logs log = some r) :
    ∃ m1 transfer t,
      transferCreateWithLog m log token = .ok (m1, transfer) ∧
      m1.transfers transfer = some t ∧
      t.status = BREthereumTransferStatus.zero ∧
      (∀ cell : Nat,
        transferExtractStatusIncluded m1 transfer (some cell)
          = .ok { memory := m1, result := 0, blockNumber := some cell }) ∧
      (∀ cell : Option (List Char),
        transferExtractStatusError m1 transfer (some cell)
          = .ok { memory := m1, result := 0, reason := some cell }) ∧
      (∀ sourceAddress targetAddress amount feeBasis, ∃ m2 p t2,
        transferCreate c m sourceAddress targetAddress amount feeBasis = .ok (m2, p) ∧
        m2.transfers p = some t2 ∧ t2.status = t.status) ∧
      ∀ status : BREthereumTransactionStatus, ∃ m2,
        transferCreateWithLog
          { m with logs := fun q => if q = log then some { r with status := status }
                                    else m.logs q }
          log token = .ok (m2, transfer) ∧
        m2.transfers transfer = some t := by
  obtain ⟨m1, hcreate, ht, -⟩ := transferCreateWithLog_record m log token r h
  refine ⟨m1, _, _, hcreate, ht, rfl, ?_, ?_, ?_, ?_⟩
  · intro cell
    simp [transferExtractStatusIncluded, ht, detailedRecord, BREthereumTransferStatus.zero]
  · intro cell
    simp [transferExtractStatusError, ht, detailedRecord, BREthereumTransferStatus.zero]
  · intro sourceAddress targetAddress amount feeBasis
    obtain ⟨m2, h2, h2t, -⟩ :=
      transferCreate_eq c m sourceAddress targetAddress amount feeBasis
    exact ⟨m2, _, _, h2, h2t, rfl⟩
  · intro status
    obtain ⟨m2, h2, h2t, -⟩ :=
      transferCreateWithLog_record
        { m with logs := fun q => if q = log then some { r with status := status }
                                  else m.logs q }
        log token { r with status := status } (by simp)
    exact ⟨m2, h2, h2t⟩

/-- C19 at a concrete input: the sample log has status Included at block 100, and the
transfer built from it answers 0 to both extractions and leaves the cells as they
were. -/
theorem transferCreateWithLog_ignores_status_witness :
    sampleMemory.logs 3 = some ⟨txIncludedAt100.status⟩ ∧
    txIncludedAt100.status.type = .TRANSACTION_STATUS_INCLUDED ∧
    ∃ m1 transfer,
      transferCreateWithLog sampleMemory 3 9 = .ok (m1, transfer) ∧
      transferExtractStatusIncluded m1 transfer (some 7)
        = .ok { memory := m1, result := 0, blockNumber := some 7 } ∧
      transferExtractStatusError m1 transfer (some none)
        = .ok { memory := m1, result := 0, reason := some none } := by
  refine ⟨rfl, rfl, ?_⟩
  obtain ⟨m1, transfer, t, h0, -, -, h1, h2, -⟩ :=
    transferCreateWithLog_ignores_status sampleCollaborators sampleMemory 3 9
      ⟨txIncludedAt100.status⟩ rfl
  exact ⟨m1, transfer, h0, h1 7, h2 none⟩

end Ethereum
